import Mathlib

/-!
Verification of the MyTravel backend's routing/orchestration core.

This file shallowly embeds the Python source under `backend/app` into Lean:

* `agents/orchestrator.py` — keyword tables, `_classify_intent`,
  `_should_use_agent`, `_route_to_agent`, `_handle_general`,
  `_process_response`, `process`;
* `agents/base.py` — `AgentResponse`, `AgentContext`, `extract_entities`,
  `format_conversation_history`;
* `agents/accommodation_agent.py`, `agents/budget_agent.py` (in detail) and
  `food_agent.py`, `transport_agent.py`, `itinerary_agent.py`
  (branch structure) — each agent's `process`;
* `integrations/booking_api.py` — `BookingAPIClient.search_hotels` and
  `_get_mock_hotels`;
* `api/v1/conversations.py` — the happy path of `chat_stream.event_generator`.

Modelling conventions:
* Python strings are `String` (lists of code points, as Python `str`); the
  Unicode `str.lower()` is modelled by `pyLower`, which covers ASCII letters
  plus the uppercase Vietnamese letters (all letters occurring in the fixed
  tables of the source).
* Machine numbers are `Nat`/`Int`; `float`-valued payload fields
  (coordinates, ratings, prices) are modelled over `Rat`, which is exact for
  all the decimal literals in the source.
* Network and LLM calls are oracle fields (`Oracle`), each returning either a
  value or an exception (`Except String _`); Python exceptions raised inside a
  `try` block are `Except.error` values, and the surrounding `except` handler
  is an explicit `match`.
-/

/-- One case-folding step of Python's `str.lower()` for the uppercase
Vietnamese letters (the ASCII range is handled separately). -/
def viLowerPairs : List (Char × Char) :=
  [('À','à'), ('Á','á'), ('Ả','ả'), ('Ã','ã'), ('Ạ','ạ'),
   ('Ă','ă'), ('Ằ','ằ'), ('Ắ','ắ'), ('Ẳ','ẳ'), ('Ẵ','ẵ'), ('Ặ','ặ'),
   ('Â','â'), ('Ầ','ầ'), ('Ấ','ấ'), ('Ẩ','ẩ'), ('Ẫ','ẫ'), ('Ậ','ậ'),
   ('Đ','đ'),
   ('È','è'), ('É','é'), ('Ẻ','ẻ'), ('Ẽ','ẽ'), ('Ẹ','ẹ'),
   ('Ê','ê'), ('Ề','ề'), ('Ế','ế'), ('Ể','ể'), ('Ễ','ễ'), ('Ệ','ệ'),
   ('Ì','ì'), ('Í','í'), ('Ỉ','ỉ'), ('Ĩ','ĩ'), ('Ị','ị'),
   ('Ò','ò'), ('Ó','ó'), ('Ỏ','ỏ'), ('Õ','õ'), ('Ọ','ọ'),
   ('Ô','ô'), ('Ồ','ồ'), ('Ố','ố'), ('Ổ','ổ'), ('Ỗ','ỗ'), ('Ộ','ộ'),
   ('Ơ','ơ'), ('Ờ','ờ'), ('Ớ','ớ'), ('Ở','ở'), ('Ỡ','ỡ'), ('Ợ','ợ'),
   ('Ù','ù'), ('Ú','ú'), ('Ủ','ủ'), ('Ũ','ũ'), ('Ụ','ụ'),
   ('Ư','ư'), ('Ừ','ừ'), ('Ứ','ứ'), ('Ử','ử'), ('Ữ','ữ'), ('Ự','ự'),
   ('Ỳ','ỳ'), ('Ý','ý'), ('Ỷ','ỷ'), ('Ỹ','ỹ'), ('Ỵ','ỵ')]

/-- Python `str.lower()` on one code point, restricted to the alphabets used
by the source's fixed tables (ASCII plus Vietnamese). -/
def pyLower (c : Char) : Char :=
  if 'A' ≤ c ∧ c ≤ 'Z' then c.toLower
  else (((viLowerPairs.find? (fun p => p.1 == c)).map Prod.snd).getD c)

/-- Python `message.lower()`. -/
def strLower (s : String) : String := ⟨s.data.map pyLower⟩

/-- `needle` is a lead segment of `hay` (code-point-wise). -/
def leadSeg : List Char → List Char → Bool
  | [], _ => true
  | _ :: _, [] => false
  | a :: as, b :: bs => a == b && leadSeg as bs

/-- Python `needle in hay` for strings: occurrence as a contiguous
subsequence. -/
def containsSub (needle : List Char) : List Char → Bool
  | [] => needle.isEmpty
  | b :: bs => leadSeg needle (b :: bs) || containsSub needle bs

/-- Python's substring test `needle in hay`. -/
def strIn (needle hay : String) : Bool := containsSub needle.data hay.data

/-! ## Intent classification (`agents/orchestrator.py`, `MasterOrchestrator`) -/

/-- `AgentType` enum of `orchestrator.py`. -/
inductive AgentType
  | accommodation
  | food
  | transport
  | itinerary
  | budget
  | general
deriving DecidableEq, Repr

/-- `AgentType.<X>.value` — the string value of each enum member. -/
def AgentType.value : AgentType → String
  | .accommodation => "accommodation"
  | .food => "food"
  | .transport => "transport"
  | .itinerary => "itinerary"
  | .budget => "budget"
  | .general => "general"

/-- `AgentType(s)` construction from a string; `none` models the
`ValueError` raised on an unknown value. -/
def AgentType.fromValue : String → Option AgentType
  | "accommodation" => some .accommodation
  | "food" => some .food
  | "transport" => some .transport
  | "itinerary" => some .itinerary
  | "budget" => some .budget
  | "general" => some .general
  | _ => none

def accommodationKeywords : List String :=
  ["khách sạn", "hotel", "phòng", "room", "lưu trú", "stay",
   "đặt phòng", "booking", "resort", "homestay", "hostel",
   "chỗ ở", "accommodation", "check-in", "check-out"]

def foodKeywords : List String :=
  ["ăn", "eat", "nhà hàng", "restaurant", "quán", "món",
   "đặc sản", "food", "cuisine", "bún", "phở", "bánh",
   "đói", "hungry", "ẩm thực", "menu", "drink", "café"]

def transportKeywords : List String :=
  ["đi", "travel", "bay", "flight", "máy bay", "xe", "bus",
   "tàu", "train", "grab", "taxi", "di chuyển", "transport",
   "vé", "ticket", "sân bay", "airport", "thuê xe"]

def itineraryKeywords : List String :=
  ["lịch trình", "itinerary", "kế hoạch", "plan", "schedule",
   "ngày", "day", "tham quan", "visit", "điểm đến", "destination",
   "tour", "hoạt động", "activity", "sắp xếp"]

def budgetKeywords : List String :=
  ["ngân sách", "budget", "chi phí", "cost", "tiền", "money",
   "giá", "price", "rẻ", "cheap", "đắt", "expensive",
   "tiết kiệm", "save", "tốn", "spend", "ước tính", "estimate"]

/-- `self.intent_keywords` — an insertion-ordered dict, modelled as an
association list in the construction order of `__init__`. -/
def intentKeywords : List (AgentType × List String) :=
  [(.accommodation, accommodationKeywords),
   (.food, foodKeywords),
   (.transport, transportKeywords),
   (.itinerary, itineraryKeywords),
   (.budget, budgetKeywords)]

/-- The five domain keys of `intent_keywords`, in construction order. -/
def domainList : List AgentType :=
  [.accommodation, .food, .transport, .itinerary, .budget]

/-- Position of a domain in the construction order of `intent_keywords`. -/
def domainIndex : AgentType → Nat
  | .accommodation => 0
  | .food => 1
  | .transport => 2
  | .itinerary => 3
  | .budget => 4
  | .general => 5

/-- Keyword list of a domain (lookup in `intent_keywords`). -/
def keywordsOf (a : AgentType) : List String :=
  (((intentKeywords.find? (fun p => p.1 == a)).map Prod.snd).getD [])

/-- `score = sum(1 for kw in keywords if kw in message_lower)` in
`_classify_intent`. -/
def keywordScore (keywords : List String) (messageLower : String) : Nat :=
  keywords.foldl (fun acc kw => acc + (if strIn kw messageLower then 1 else 0)) 0

/-- The score `_classify_intent` computes for one domain on a raw message. -/
def domainScore (a : AgentType) (message : String) : Nat :=
  keywordScore (keywordsOf a) (strLower message)

/-- The `scores` dict of `_classify_intent`: domains with positive score, in
insertion order. -/
def scoresFor (messageLower : String) : List (AgentType × Nat) :=
  intentKeywords.filterMap (fun p =>
    let s := keywordScore p.2 messageLower
    if 0 < s then some (p.1, s) else none)

/-- Tail of Python's `max(scores, key=scores.get)`: keeps the current best,
replacing it only on a strictly greater value, so the first maximal key in
iteration order wins. -/
def maxKeyGo (a : AgentType) (s : Nat) : List (AgentType × Nat) → AgentType
  | [] => a
  | (b, u) :: t => if s < u then maxKeyGo b u t else maxKeyGo a s t

/-- Python's `max(scores, key=scores.get)` over an insertion-ordered dict
(`none` on an empty dict). -/
def maxKey : List (AgentType × Nat) → Option AgentType
  | [] => none
  | (a, s) :: t => some (maxKeyGo a s t)

/-- The value `_classify_intent` stores in `state.selected_agent`. -/
def classifySelected (message : String) : String :=
  match maxKey (scoresFor (strLower message)) with
  | some selected => selected.value
  | none => AgentType.general.value

/-! ## Lemmas about the classifier -/

/-- The score list of all five domains in construction order (not filtered). -/
def scoreList (messageLower : String) : List (AgentType × Nat) :=
  intentKeywords.map (fun p => (p.1, keywordScore p.2 messageLower))

/-- The positivity filter `if score > 0` applied when building `scores`. -/
def posFilter (l : List (AgentType × Nat)) : List (AgentType × Nat) :=
  l.filterMap (fun q => if 0 < q.2 then some q else none)

theorem scoresFor_eq_posFilter (ml : String) :
    scoresFor ml = posFilter (scoreList ml) := rfl

theorem posFilter_sub {p : AgentType × Nat} {l : List (AgentType × Nat)}
    (h : p ∈ posFilter l) : p ∈ l := by
  rcases List.mem_filterMap.mp h with ⟨a, ha, hfa⟩
  by_cases hpos : 0 < a.2
  · simp [hpos] at hfa; exact hfa ▸ ha
  · simp [hpos] at hfa

theorem posFilter_append_pos (l1 l2 : List (AgentType × Nat)) (q : AgentType × Nat)
    (hq : 0 < q.2) :
    posFilter (l1 ++ q :: l2) = posFilter l1 ++ q :: posFilter l2 := by
  simp [posFilter, List.filterMap_append, List.filterMap_cons, hq]

theorem maxKeyGo_all_le (a : AgentType) (s : Nat) :
    ∀ t : List (AgentType × Nat), (∀ p ∈ t, p.2 ≤ s) → maxKeyGo a s t = a := by
  intro t
  induction t with
  | nil => intro _; rfl
  | cons q t ih =>
      intro h
      obtain ⟨b, u⟩ := q
      have hu : u ≤ s := h (b, u) (List.mem_cons_self _ _)
      have hns : ¬ s < u := Nat.not_lt.mpr hu
      simp only [maxKeyGo, hns, if_false]
      exact ih (fun p hp => h p (List.mem_cons_of_mem _ hp))

theorem maxKeyGo_through (d : AgentType) (sd : Nat)
    (suf : List (AgentType × Nat)) (hsuf : ∀ p ∈ suf, p.2 ≤ sd) :
    ∀ (pre : List (AgentType × Nat)) (b : AgentType) (u : Nat),
      u < sd → (∀ p ∈ pre, p.2 < sd) →
      maxKeyGo b u (pre ++ (d, sd) :: suf) = d := by
  intro pre
  induction pre with
  | nil =>
      intro b u hu _
      simp only [List.nil_append, maxKeyGo, hu, if_true]
      exact maxKeyGo_all_le d sd suf hsuf
  | cons q pre ih =>
      intro b u hu hpre
      obtain ⟨c, v⟩ := q
      have hv : v < sd := hpre (c, v) (List.mem_cons_self _ _)
      have hpre' : ∀ p ∈ pre, p.2 < sd := fun p hp => hpre p (List.mem_cons_of_mem _ hp)
      by_cases huv : u < v
      · simp only [List.cons_append, maxKeyGo, huv, if_true]
        exact ih c v hv hpre'
      · simp only [List.cons_append, maxKeyGo, huv, if_false]
        exact ih b u hu hpre'

theorem maxKey_first (pre : List (AgentType × Nat)) (d : AgentType) (sd : Nat)
    (suf : List (AgentType × Nat))
    (hpre : ∀ p ∈ pre, p.2 < sd) (hsuf : ∀ p ∈ suf, p.2 ≤ sd) :
    maxKey (pre ++ (d, sd) :: suf) = some d := by
  cases pre with
  | nil =>
      simp only [List.nil_append, maxKey]
      exact congrArg some (maxKeyGo_all_le d sd suf hsuf)
  | cons q pre =>
      obtain ⟨b, u⟩ := q
      simp only [List.cons_append, maxKey]
      exact congrArg some (maxKeyGo_through d sd suf hsuf pre b u
        (hpre (b, u) (List.mem_cons_self _ _))
        (fun p hp => hpre p (List.mem_cons_of_mem _ hp)))

theorem classify_eq_of_decomp (msg : String) (d : AgentType)
    (pre suf : List (AgentType × Nat))
    (hdec : scoreList (strLower msg) = pre ++ (d, domainScore d msg) :: suf)
    (hpos : 0 < domainScore d msg)
    (hpre : ∀ p ∈ pre, p.2 < domainScore d msg)
    (hsuf : ∀ p ∈ suf, p.2 ≤ domainScore d msg) :
    classifySelected msg = d.value := by
  rw [classifySelected, scoresFor_eq_posFilter, hdec, posFilter_append_pos _ _ _ hpos,
      maxKey_first _ d _ _ (fun p hp => hpre p (posFilter_sub hp))
        (fun p hp => hsuf p (posFilter_sub hp))]

/-- Shared characterization: `_classify_intent` selects the first domain (in
the construction order of `intent_keywords`) whose score is positive, at
least every other domain's score, and strictly above every earlier domain's
score. -/
theorem classify_first_max (msg : String) (d : AgentType)
    (hd : d ∈ domainList)
    (hpos : 0 < domainScore d msg)
    (hmax : ∀ e ∈ domainList, domainScore e msg ≤ domainScore d msg)
    (hearlier : ∀ e ∈ domainList, domainIndex e < domainIndex d →
      domainScore e msg < domainScore d msg) :
    classifySelected msg = d.value := by
  fin_cases hd
  · refine classify_eq_of_decomp msg AgentType.accommodation []
      [(AgentType.food, domainScore AgentType.food msg),
       (AgentType.transport, domainScore AgentType.transport msg),
       (AgentType.itinerary, domainScore AgentType.itinerary msg),
       (AgentType.budget, domainScore AgentType.budget msg)] rfl hpos
      (fun p hp => absurd hp (List.not_mem_nil p)) ?_
    intro p hp
    simp only [List.mem_cons, List.not_mem_nil, or_false] at hp
    rcases hp with h | h | h | h
    all_goals rw [h]
    · exact hmax AgentType.food (by decide)
    · exact hmax AgentType.transport (by decide)
    · exact hmax AgentType.itinerary (by decide)
    · exact hmax AgentType.budget (by decide)
  · refine classify_eq_of_decomp msg AgentType.food
      [(AgentType.accommodation, domainScore AgentType.accommodation msg)]
      [(AgentType.transport, domainScore AgentType.transport msg),
       (AgentType.itinerary, domainScore AgentType.itinerary msg),
       (AgentType.budget, domainScore AgentType.budget msg)] rfl hpos ?_ ?_
    · intro p hp
      simp only [List.mem_cons, List.not_mem_nil, or_false] at hp
      rw [hp]
      exact hearlier AgentType.accommodation (by decide) (by decide)
    · intro p hp
      simp only [List.mem_cons, List.not_mem_nil, or_false] at hp
      rcases hp with h | h | h
      all_goals rw [h]
      · exact hmax AgentType.transport (by decide)
      · exact hmax AgentType.itinerary (by decide)
      · exact hmax AgentType.budget (by decide)
  · refine classify_eq_of_decomp msg AgentType.transport
      [(AgentType.accommodation, domainScore AgentType.accommodation msg),
       (AgentType.food, domainScore AgentType.food msg)]
      [(AgentType.itinerary, domainScore AgentType.itinerary msg),
       (AgentType.budget, domainScore AgentType.budget msg)] rfl hpos ?_ ?_
    · intro p hp
      simp only [List.mem_cons, List.not_mem_nil, or_false] at hp
      rcases hp with h | h
      all_goals rw [h]
      · exact hearlier AgentType.accommodation (by decide) (by decide)
      · exact hearlier AgentType.food (by decide) (by decide)
    · intro p hp
      simp only [List.mem_cons, List.not_mem_nil, or_false] at hp
      rcases hp with h | h
      all_goals rw [h]
      · exact hmax AgentType.itinerary (by decide)
      · exact hmax AgentType.budget (by decide)
  · refine classify_eq_of_decomp msg AgentType.itinerary
      [(AgentType.accommodation, domainScore AgentType.accommodation msg),
       (AgentType.food, domainScore AgentType.food msg),
       (AgentType.transport, domainScore AgentType.transport msg)]
      [(AgentType.budget, domainScore AgentType.budget msg)] rfl hpos ?_ ?_
    · intro p hp
      simp only [List.mem_cons, List.not_mem_nil, or_false] at hp
      rcases hp with h | h | h
      all_goals rw [h]
      · exact hearlier AgentType.accommodation (by decide) (by decide)
      · exact hearlier AgentType.food (by decide) (by decide)
      · exact hearlier AgentType.transport (by decide) (by decide)
    · intro p hp
      simp only [List.mem_cons, List.not_mem_nil, or_false] at hp
      rw [hp]
      exact hmax AgentType.budget (by decide)
  · refine classify_eq_of_decomp msg AgentType.budget
      [(AgentType.accommodation, domainScore AgentType.accommodation msg),
       (AgentType.food, domainScore AgentType.food msg),
       (AgentType.transport, domainScore AgentType.transport msg),
       (AgentType.itinerary, domainScore AgentType.itinerary msg)] [] rfl hpos ?_
      (fun p hp => absurd hp (List.not_mem_nil p))
    intro p hp
    simp only [List.mem_cons, List.not_mem_nil, or_false] at hp
    rcases hp with h | h | h | h
    all_goals rw [h]
    · exact hearlier AgentType.accommodation (by decide) (by decide)
    · exact hearlier AgentType.food (by decide) (by decide)
    · exact hearlier AgentType.transport (by decide) (by decide)
    · exact hearlier AgentType.itinerary (by decide) (by decide)

/-! ## C1, C2, C10 -/

theorem keywordScore_foldl (p : String → Bool) :
    ∀ (l : List String) (n : Nat),
      l.foldl (fun acc kw => acc + (if p kw then 1 else 0)) n = n + l.countP p := by
  intro l
  induction l with
  | nil => intro n; simp
  | cons a t ih =>
      intro n
      simp only [List.foldl_cons, List.countP_cons, ih]
      cases hp : p a
      · simp [hp]
      · simp [hp]
        omega

theorem keywordScore_eq_countP (kws : List String) (ml : String) :
    keywordScore kws ml = kws.countP (fun kw => strIn kw ml) := by
  simpa using keywordScore_foldl (fun kw => strIn kw ml) kws 0

/-- C1: a message matching keywords of exactly one domain (positive score
there, zero everywhere else) is classified to that domain. -/
theorem classify_unique_positive_domain (msg : String) (d : AgentType)
    (hd : d ∈ domainList)
    (hpos : 0 < domainScore d msg)
    (hzero : ∀ e ∈ domainList, e ≠ d → domainScore e msg = 0) :
    classifySelected msg = d.value := by
  refine classify_first_max msg d hd hpos ?_ ?_
  · intro e he
    by_cases h : e = d
    · rw [h]
    · rw [hzero e he h]; exact Nat.zero_le _
  · intro e he hlt
    have hne : e ≠ d := by
      intro h; rw [h] at hlt; exact Nat.lt_irrefl _ hlt
    rw [hzero e he hne]; exact hpos

theorem classify_unique_positive_domain_witness :
    (AgentType.accommodation ∈ domainList
      ∧ 0 < domainScore AgentType.accommodation "hotel"
      ∧ (∀ e ∈ domainList, e ≠ AgentType.accommodation → domainScore e "hotel" = 0))
    ∧ classifySelected "hotel" = AgentType.accommodation.value :=
  ⟨⟨by decide, by decide, by decide⟩,
   classify_unique_positive_domain "hotel" AgentType.accommodation
     (by decide) (by decide) (by decide)⟩

/-- C2: the score of each domain equals the number of distinct keywords of
that domain occurring as substrings of the lower-cased message — each
keyword contributes at most 1 however often it occurs. -/
theorem domain_score_counts_distinct_keywords (msg : String) (d : AgentType)
    (hd : d ∈ domainList) :
    domainScore d msg
      = ((keywordsOf d).dedup.filter (fun kw => strIn kw (strLower msg))).length := by
  have hnd : (keywordsOf d).dedup = keywordsOf d := by
    fin_cases hd <;> exact List.dedup_eq_self.mpr (by decide)
  rw [hnd, domainScore, keywordScore_eq_countP, List.countP_eq_length_filter]

theorem domain_score_counts_distinct_keywords_witness :
    (AgentType.food ∈ domainList)
    ∧ domainScore AgentType.food "phở với phở và bún"
        = ((keywordsOf AgentType.food).dedup.filter
            (fun kw => strIn kw (strLower "phở với phở và bún"))).length
    ∧ domainScore AgentType.food "phở với phở và bún" = 2 :=
  ⟨by decide,
   domain_score_counts_distinct_keywords "phở với phở và bún" AgentType.food (by decide),
   by decide⟩

/-- C10: classification is deterministic on ties — when a domain's score is
positive, no other domain scores higher, and every domain earlier in the
construction order (accommodation, food, transport, itinerary, budget)
scores strictly lower, the classifier selects that domain; in particular the
first maximal key in insertion order wins any tie. -/
theorem classify_tie_resolved_by_order (msg : String) (d : AgentType)
    (hd : d ∈ domainList)
    (hpos : 0 < domainScore d msg)
    (hmax : ∀ e ∈ domainList, domainScore e msg ≤ domainScore d msg)
    (hearlier : ∀ e ∈ domainList, domainIndex e < domainIndex d →
      domainScore e msg < domainScore d msg) :
    classifySelected msg = d.value :=
  classify_first_max msg d hd hpos hmax hearlier

theorem classify_tie_resolved_by_order_witness :
    (domainScore AgentType.accommodation "hotel restaurant"
        = domainScore AgentType.food "hotel restaurant"
      ∧ 0 < domainScore AgentType.accommodation "hotel restaurant")
    ∧ classifySelected "hotel restaurant" = AgentType.accommodation.value :=
  ⟨⟨by decide, by decide⟩,
   classify_tie_resolved_by_order "hotel restaurant" AgentType.accommodation
     (by decide) (by decide) (by decide) (by decide)⟩

/-! ## Entity extraction (`agents/base.py`, `BaseAgent.extract_entities`)

The three date regexes, the money regex and the traveler-count regex of
`extract_entities` are embedded as explicit scanners with Python `re`
semantics on the relevant pattern class: left-to-right scan,
non-overlapping matches, greedy quantifiers with backtracking on the
bounded `\d{1,2}` repetitions, and `re.IGNORECASE` via `pyLower`. -/

/-- Python `\s` (whitespace class, ASCII range). -/
def isWS (c : Char) : Bool :=
  c == ' ' || c == '\t' || c == '\n' || c == '\r' || c == '\x0b' || c == '\x0c'

/-- Exactly `n` characters satisfying `p`: returns (consumed, rest). -/
def takeCount (p : Char → Bool) : Nat → List Char → Option (List Char × List Char)
  | 0, l => some ([], l)
  | _ + 1, [] => none
  | n + 1, c :: t =>
      if p c then (takeCount p n t).map (fun q => (c :: q.1, q.2)) else none

/-- Empty continuation: the pattern ends here. -/
def mEnd : List Char → Option (List Char × List Char) := fun l => some ([], l)

/-- `p{n}` followed by `cont`. -/
def mExact (p : Char → Bool) (n : Nat)
    (cont : List Char → Option (List Char × List Char)) :
    List Char → Option (List Char × List Char) := fun l =>
  match takeCount p n l with
  | some (a, r) => (cont r).map (fun q => (a ++ q.1, q.2))
  | none => none

/-- `p{1,2}` followed by `cont` (greedy, with backtracking). -/
def m12 (p : Char → Bool) (cont : List Char → Option (List Char × List Char)) :
    List Char → Option (List Char × List Char) := fun l =>
  match mExact p 2 cont l with
  | some res => some res
  | none => mExact p 1 cont l

/-- A literal character followed by `cont`. -/
def mChar (c : Char) (cont : List Char → Option (List Char × List Char)) :
    List Char → Option (List Char × List Char) := fun l =>
  match l with
  | x :: t => if x == c then (cont t).map (fun q => (x :: q.1, q.2)) else none
  | [] => none

/-- `p*` followed by `cont`. Maximal munch without backtracking — exact for
the patterns of the source, whose continuations never start with a
character of the starred class. -/
def mStar (p : Char → Bool) (cont : List Char → Option (List Char × List Char)) :
    List Char → Option (List Char × List Char) := fun l =>
  let a := l.takeWhile p
  (cont (l.drop a.length)).map (fun q => (a ++ q.1, q.2))

/-- `p+` followed by `cont` (same maximal-munch remark as `mStar`). -/
def mPlus (p : Char → Bool) (cont : List Char → Option (List Char × List Char)) :
    List Char → Option (List Char × List Char) := fun l =>
  let a := l.takeWhile p
  if a.isEmpty then none
  else (cont (l.drop a.length)).map (fun q => (a ++ q.1, q.2))

/-- A literal word, compared case-insensitively (`re.IGNORECASE`),
followed by `cont`. -/
def mWord (w : String) (cont : List Char → Option (List Char × List Char)) :
    List Char → Option (List Char × List Char) := fun l =>
  let n := w.data.length
  if (l.take n).map pyLower == w.data.map pyLower then
    (cont (l.drop n)).map (fun q => (l.take n ++ q.1, q.2))
  else none

/-- Alternation of literal words, first alternative first, each followed by
`cont`. -/
def mAlt : List String → (List Char → Option (List Char × List Char)) →
    List Char → Option (List Char × List Char)
  | [], _, _ => none
  | w :: ws, cont, l =>
      match mWord w cont l with
      | some res => some res
      | none => mAlt ws cont l

/-- Pattern `\d{1,2}/\d{1,2}/\d{4}`; the match is the whole matched text. -/
def matchDate1 (l : List Char) : Option (String × List Char) :=
  (m12 Char.isDigit (mChar '/' (m12 Char.isDigit (mChar '/'
    (mExact Char.isDigit 4 mEnd)))) l).map (fun q => (⟨q.1⟩, q.2))

/-- Pattern `\d{4}-\d{2}-\d{2}`. -/
def matchDate2 (l : List Char) : Option (String × List Char) :=
  (mExact Char.isDigit 4 (mChar '-' (mExact Char.isDigit 2 (mChar '-'
    (mExact Char.isDigit 2 mEnd)))) l).map (fun q => (⟨q.1⟩, q.2))

/-- Pattern `\d{1,2}\s+(?:tháng|thg)\s*\d{1,2}`. -/
def matchDate3 (l : List Char) : Option (String × List Char) :=
  (m12 Char.isDigit (mPlus isWS (mAlt ["tháng", "thg"] (mStar isWS
    (m12 Char.isDigit mEnd)))) l).map (fun q => (⟨q.1⟩, q.2))

/-- Money units of the pattern
`(\d+(?:\.\d+)?)\s*(?:triệu|tr|VND|đồng|k|nghìn|ngàn)`, in source order. -/
def moneyUnits : List String := ["triệu", "tr", "VND", "đồng", "k", "nghìn", "ngàn"]

/-- The money pattern; `re.findall` returns capture group 1 (the number). -/
def matchMoney (l : List Char) : Option (String × List Char) :=
  let ds := l.takeWhile Char.isDigit
  if ds.isEmpty then none
  else
    let r1 := l.drop ds.length
    let unitCont := mStar isWS (mAlt moneyUnits mEnd)
    let withFrac : Option (String × List Char) :=
      match r1 with
      | '.' :: r2 =>
          let fs := r2.takeWhile Char.isDigit
          if fs.isEmpty then none
          else
            match unitCont (r2.drop fs.length) with
            | some q => some (⟨ds ++ '.' :: fs⟩, q.2)
            | none => none
      | _ => none
    match withFrac with
    | some res => some res
    | none =>
        match unitCont r1 with
        | some q => some (⟨ds⟩, q.2)
        | none => none

/-- The traveler-count pattern `(\d+)\s*(?:người|ng|khách|traveler)`;
`re.findall` returns capture group 1. -/
def matchPeople (l : List Char) : Option (String × List Char) :=
  let ds := l.takeWhile Char.isDigit
  if ds.isEmpty then none
  else
    match (mStar isWS (mAlt ["người", "ng", "khách", "traveler"] mEnd))
        (l.drop ds.length) with
    | some q => some (⟨ds⟩, q.2)
    | none => none

/-- `re.findall` driver: scan left to right, emit non-overlapping matches,
resume after each match. The fuel argument starts at the list length; every
match of the patterns above consumes at least one character, so the fuel
never runs out before the scan ends. -/
def findAllGo (m : List Char → Option (String × List Char)) :
    Nat → List Char → List String
  | 0, _ => []
  | _, [] => []
  | fuel + 1, c :: t =>
      match m (c :: t) with
      | some (g, rest) => g :: findAllGo m fuel rest
      | none => findAllGo m fuel t

/-- `re.findall(pattern, text, re.IGNORECASE)`. -/
def findAllM (m : List Char → Option (String × List Char)) (text : String) :
    List String :=
  findAllGo m text.data.length text.data

/-- The fixed gazetteer `locations` of `extract_entities`. -/
def locationsTable : List String :=
  ["Hà Nội", "Hanoi", "HCM", "Hồ Chí Minh", "Saigon", "Sài Gòn",
   "Đà Nẵng", "Da Nang", "Huế", "Hue", "Hội An", "Hoi An",
   "Nha Trang", "Đà Lạt", "Da Lat", "Phú Quốc", "Phu Quoc",
   "Hạ Long", "Ha Long", "Sapa", "Sa Pa", "Cần Thơ", "Can Tho"]

/-- Python `int(s)` on a digit string. -/
def pyInt (s : String) : Nat :=
  s.data.foldl (fun n c => n * 10 + (c.toNat - '0'.toNat)) 0

/-- The `entities` dict built by `extract_entities`: absent keys are
`none`. -/
structure ExtractedEntities where
  dates : Option (List String) := none
  amounts : Option (List String) := none
  locations : Option (List String) := none
  travelers : Option Nat := none
deriving DecidableEq, Repr

/-- `BaseAgent.extract_entities`, key by key in source order. Each date
pattern that matches anything overwrites `entities["dates"]`. -/
def extractEntities (text : String) : ExtractedEntities :=
  let e0 : ExtractedEntities := {}
  let m1 := findAllM matchDate1 text
  let e1 := if m1.isEmpty then e0 else { e0 with dates := some m1 }
  let m2 := findAllM matchDate2 text
  let e2 := if m2.isEmpty then e1 else { e1 with dates := some m2 }
  let m3 := findAllM matchDate3 text
  let e3 := if m3.isEmpty then e2 else { e2 with dates := some m3 }
  let money := findAllM matchMoney text
  let e4 := if money.isEmpty then e3 else { e3 with amounts := some money }
  let found := locationsTable.filter (fun loc => strIn (strLower loc) (strLower text))
  let e5 := if found.isEmpty then e4 else { e4 with locations := some found }
  let people := findAllM matchPeople text
  if people.isEmpty then e5 else { e5 with travelers := some (pyInt (people.headD "")) }

/-! ## C8 -/

/-- C8 counterexample: `"1/1/2024 2024-02-02"` contains a match of the first
date pattern and a match of the second, but the returned mapping holds only
the second pattern's matches — the first pattern's match `"1/1/2024"` is
overwritten, so not all date matches are collected. -/
theorem extract_entities_dates_overwritten_counterexample :
    findAllM matchDate1 "1/1/2024 2024-02-02" = ["1/1/2024"]
    ∧ findAllM matchDate2 "1/1/2024 2024-02-02" = ["2024-02-02"]
    ∧ (extractEntities "1/1/2024 2024-02-02").dates = some ["2024-02-02"] :=
  ⟨by decide, by decide, by decide⟩

theorem headD_as_head? (l : List String) :
    (if l.isEmpty then none else some (pyInt (l.headD ""))) = l.head?.map pyInt := by
  cases l <;> rfl

theorem extractEntities_dates_eq (text : String) :
    (extractEntities text).dates =
      (if (findAllM matchDate3 text).isEmpty then
        (if (findAllM matchDate2 text).isEmpty then
          (if (findAllM matchDate1 text).isEmpty then none
           else some (findAllM matchDate1 text))
         else some (findAllM matchDate2 text))
       else some (findAllM matchDate3 text)) := by
  simp only [extractEntities]
  split_ifs <;> rfl

theorem extractEntities_amounts_eq (text : String) :
    (extractEntities text).amounts =
      (if (findAllM matchMoney text).isEmpty then none
       else some (findAllM matchMoney text)) := by
  simp only [extractEntities]
  split_ifs <;> rfl

theorem extractEntities_locations_eq (text : String) :
    (extractEntities text).locations =
      (if (locationsTable.filter (fun loc => strIn (strLower loc) (strLower text))).isEmpty
       then none
       else some (locationsTable.filter (fun loc => strIn (strLower loc) (strLower text)))) := by
  simp only [extractEntities]
  split_ifs <;> rfl

theorem extractEntities_travelers_eq (text : String) :
    (extractEntities text).travelers = (findAllM matchPeople text).head?.map pyInt := by
  rw [← headD_as_head? (findAllM matchPeople text)]
  simp only [extractEntities]
  split_ifs <;> rfl

/-- C8 (amended): `extract_entities` collects, per pattern, every match (not
just the first) for amounts and locations, and the traveler count takes only
the first match parsed as an integer; the `dates` entry, however, holds all
matches of the LAST date pattern that matched anything — each later date
pattern with matches overwrites the earlier ones. The result is a function
of the input text and the fixed tables alone. The final conjuncts exhibit
the multi-match and first-match-only behavior on concrete inputs. -/
theorem extract_entities_collection (text : String) :
    ((extractEntities text).dates =
      (if (findAllM matchDate3 text).isEmpty then
        (if (findAllM matchDate2 text).isEmpty then
          (if (findAllM matchDate1 text).isEmpty then none
           else some (findAllM matchDate1 text))
         else some (findAllM matchDate2 text))
       else some (findAllM matchDate3 text))
    ∧ (extractEntities text).amounts =
        (if (findAllM matchMoney text).isEmpty then none
         else some (findAllM matchMoney text))
    ∧ (extractEntities text).locations =
        (if (locationsTable.filter (fun loc => strIn (strLower loc) (strLower text))).isEmpty
         then none
         else some (locationsTable.filter (fun loc => strIn (strLower loc) (strLower text))))
    ∧ (extractEntities text).travelers = (findAllM matchPeople text).head?.map pyInt)
    ∧ findAllM matchMoney "2 triệu và 3.5 triệu" = ["2", "3.5"]
    ∧ (extractEntities "nhóm 4 người và 5 người").travelers = some 4 :=
  ⟨⟨extractEntities_dates_eq text, extractEntities_amounts_eq text,
    extractEntities_locations_eq text, extractEntities_travelers_eq text⟩,
   by decide, by decide⟩

/-! ## Dates and the budget agent (`agents/budget_agent.py`) -/

/-- A `datetime.date`. -/
structure PyDate where
  year : Int
  month : Nat
  day : Nat
deriving DecidableEq, Repr

def isLeapYear (y : Int) : Bool :=
  (y % 4 == 0 && y % 100 != 0) || y % 400 == 0

def daysInMonth (y : Int) (m : Nat) : Nat :=
  if m == 2 then (if isLeapYear y then 29 else 28)
  else if m == 4 || m == 6 || m == 9 || m == 11 then 30
  else 31

def digitVal (c : Char) : Nat := c.toNat - '0'.toNat

/-- `date.fromisoformat` on the canonical `YYYY-MM-DD` layout; `none` models
the `ValueError` raised on any other input. -/
def parseIsoDate (s : String) : Option PyDate :=
  match s.data with
  | [y1, y2, y3, y4, s1, m1, m2, s2, d1, d2] =>
      if y1.isDigit && y2.isDigit && y3.isDigit && y4.isDigit && s1 == '-'
          && m1.isDigit && m2.isDigit && s2 == '-' && d1.isDigit && d2.isDigit then
        let y : Int :=
          Int.ofNat (((digitVal y1 * 10 + digitVal y2) * 10 + digitVal y3) * 10 + digitVal y4)
        let mo := digitVal m1 * 10 + digitVal m2
        let da := digitVal d1 * 10 + digitVal d2
        if 1 ≤ mo && mo ≤ 12 && 1 ≤ da && da ≤ daysInMonth y mo then
          some ⟨y, mo, da⟩
        else none
      else none
  | _ => none

/-- Serial day number of a proleptic Gregorian date (days since 1970-01-01);
all divisions have a nonnegative numerator, so truncating division is
exact for the computation. -/
def daysFromCivil (y : Int) (m d : Nat) : Int :=
  let y' : Int := if m ≤ 2 then y - 1 else y
  let era : Int := Int.tdiv (if 0 ≤ y' then y' else y' - 399) 400
  let yoe : Int := y' - era * 400
  let mp : Int := Int.ofNat ((m + 9) % 12)
  let doy : Int := Int.tdiv (153 * mp + 2) 5 + (d : Int) - 1
  let doe : Int := yoe * 365 + Int.tdiv yoe 4 - Int.tdiv yoe 100 + doy
  era * 146097 + doe - 719468

/-- Python `(a - b).days` on dates. -/
def dateDiffDays (a b : PyDate) : Int :=
  daysFromCivil a.year a.month a.day - daysFromCivil b.year b.month b.day

/-- The `trip_data` dict: the fields read by the agents; absent keys are
`none`. -/
structure TripData where
  destination : Option String := none
  start_date : Option String := none
  end_date : Option String := none
  travelers_count : Option Int := none
  budget : Option Int := none
deriving DecidableEq, Repr

/-- `BudgetAgent._calculate_days`: parse both ISO dates and return the
inclusive day span; any exception (missing key, malformed date) yields 1. -/
def calculate_days (trip_data : TripData) : Int :=
  match parseIsoDate (trip_data.start_date.getD ""),
      parseIsoDate (trip_data.end_date.getD "") with
  | some s, some e => dateDiffDays e s + 1
  | _, _ => 1

structure NightlyTier where
  total : Int
  per_night : Int
deriving DecidableEq, Repr

structure DailyTier where
  total : Int
  per_day : Int
deriving DecidableEq, Repr

structure TransportEstimate where
  local_total : Int
  inter_city_estimated : Int
deriving DecidableEq, Repr

structure ActivitiesEstimate where
  per_day : Int
  total : Int
deriving DecidableEq, Repr

/-- The nested dict returned by `BudgetAgent._calculate_estimates`. -/
structure BudgetEstimates where
  accommodation_budget : NightlyTier
  accommodation_mid_range : NightlyTier
  accommodation_luxury : NightlyTier
  food_budget : DailyTier
  food_mid_range : DailyTier
  food_luxury : DailyTier
  transport : TransportEstimate
  activities : ActivitiesEstimate
deriving DecidableEq, Repr

/-- `BudgetAgent._calculate_estimates`. -/
def calculate_estimates (days travelers : Int) : BudgetEstimates :=
  { accommodation_budget := { total := days * 400000, per_night := 400000 }
    accommodation_mid_range := { total := days * 1000000, per_night := 1000000 }
    accommodation_luxury := { total := days * 3000000, per_night := 3000000 }
    food_budget := { total := days * travelers * 200000, per_day := 200000 }
    food_mid_range := { total := days * travelers * 500000, per_day := 500000 }
    food_luxury := { total := days * travelers * 1000000, per_day := 1000000 }
    transport := { local_total := days * 150000, inter_city_estimated := 500000 }
    activities := { per_day := 300000, total := days * 300000 } }

def estimateKeywords : List String :=
  ["ước tính", "bao nhiêu", "chi phí", "tốn", "cost", "estimate"]

def optimizeKeywords : List String :=
  ["tiết kiệm", "giảm", "tối ưu", "rẻ hơn", "save", "optimize"]

def breakdownKeywords : List String :=
  ["phân bổ", "chia", "breakdown", "chi tiết", "hạng mục"]

/-- `BudgetAgent._determine_intent`. -/
def determine_budget_intent (message : String) : String :=
  let ml := strLower message
  if estimateKeywords.any (fun kw => strIn kw ml) then "estimate"
  else if optimizeKeywords.any (fun kw => strIn kw ml) then "optimize"
  else if breakdownKeywords.any (fun kw => strIn kw ml) then "breakdown"
  else "general"

/-! ## C7 -/

/-- The trip snapshot of the C7 scenario. -/
def tripC7 : TripData :=
  { start_date := some "2024-01-01", end_date := some "2024-01-03",
    travelers_count := some 2 }

/-- C7 counterexample: at the scenario input (days = 3, travelers = 2) the
accommodation, local-transport and activities totals are identical to their
values for a single traveler — they are NOT scaled by the traveler count,
refuting "each carrying a positive number scaled by the day count and the
traveler count". -/
theorem budget_estimates_not_traveler_scaled :
    calculate_days tripC7 = 3
    ∧ (calculate_estimates 3 2).accommodation_mid_range.total
        = (calculate_estimates 3 1).accommodation_mid_range.total
    ∧ (calculate_estimates 3 2).transport.local_total
        = (calculate_estimates 3 1).transport.local_total
    ∧ (calculate_estimates 3 2).activities.total
        = (calculate_estimates 3 1).activities.total :=
  ⟨by decide, by decide, by decide, by decide⟩

/-- C7 (amended): on the scenario trip the day-count helper returns 3 and
the message classifies as an estimate request; for any positive day and
traveler counts the estimate structure carries positive accommodation, food,
transport and activities totals, where the food total scales with day count
and traveler count while the accommodation, local-transport and activities
totals scale with the day count only (unchanged under the traveler count). -/
theorem budget_estimate_scenario (days travelers : Int)
    (hd : 0 < days) (ht : 0 < travelers) :
    calculate_days tripC7 = 3
    ∧ determine_budget_intent "Ước tính chi phí" = "estimate"
    ∧ (calculate_estimates days travelers).accommodation_mid_range.total = days * 1000000
    ∧ (calculate_estimates days travelers).food_mid_range.total = days * travelers * 500000
    ∧ (calculate_estimates days travelers).transport.local_total = days * 150000
    ∧ (calculate_estimates days travelers).activities.total = days * 300000
    ∧ 0 < (calculate_estimates days travelers).accommodation_mid_range.total
    ∧ 0 < (calculate_estimates days travelers).food_mid_range.total
    ∧ 0 < (calculate_estimates days travelers).transport.local_total
    ∧ 0 < (calculate_estimates days travelers).activities.total
    ∧ (calculate_estimates days travelers).accommodation_mid_range.total
        = (calculate_estimates days 1).accommodation_mid_range.total := by
  refine ⟨by decide, by decide, rfl, rfl, rfl, rfl, ?_, ?_, ?_, ?_, rfl⟩
  · exact mul_pos hd (by norm_num)
  · exact mul_pos (mul_pos hd ht) (by norm_num)
  · exact mul_pos hd (by norm_num)
  · exact mul_pos hd (by norm_num)

theorem budget_estimate_scenario_witness :
    ((0 : Int) < 3 ∧ (0 : Int) < 2)
    ∧ (calculate_estimates 3 2).food_mid_range.total = 3 * 2 * 500000 :=
  ⟨⟨by decide, by decide⟩, (budget_estimate_scenario 3 2 (by decide) (by decide)).2.2.2.1⟩

/-! ## Hotel search integration (`integrations/booking_api.py`) -/

/-- A raw hotel record of the upstream API response (`data["result"]`
items); the fields the client reads, each optional as in a JSON dict. -/
structure RawHotel where
  hotel_name : Option String := none
  accommodation_type_name : Option String := none
  address : Option String := none
  latitude : Option Rat := none
  longitude : Option Rat := none
  min_total_price : Option Rat := none
  review_score : Option Rat := none
  review_nr : Option Int := none
  main_photo_url : Option String := none
  has_free_parking : Bool := false
  has_swimming_pool : Bool := false
  is_free_cancellable : Bool := false
  url : Option String := none
deriving DecidableEq, Repr

/-- `HotelSearchResult` of `booking_api.py`. -/
structure HotelSearchResult where
  name : String
  type : String
  address : String
  latitude : Option Rat := none
  longitude : Option Rat := none
  price_per_night : Rat
  currency : String := "VND"
  rating : Option Rat := none
  review_count : Option Int := none
  image_url : Option String := none
  amenities : List String := []
  booking_url : Option String := none
  source : String := "api"
deriving DecidableEq, Repr

/-- Outcome of the upstream `/v1/hotels/search` HTTP call. -/
inductive HttpOutcome
  | response (status : Nat) (result : List RawHotel)
  | exc (e : String)
deriving Repr

/-- `PlaceResult` of `integrations/google_maps.py` (restaurants,
attractions). -/
structure PlaceResult where
  name : String
  address : String
  latitude : Rat
  longitude : Rat
  rating : Option Rat := none
  review_count : Option Int := none
  price_level : Option Int := none
  types : List String := []
  opening_hours : Option String := none
  phone : Option String := none
  website : Option String := none
  image_url : Option String := none
  place_id : Option String := none
deriving DecidableEq, Repr

/-- `AIMessage` of the provider abstraction. -/
structure AIMessage where
  role : String
  content : String
deriving DecidableEq, Repr

/-- External nondeterminism: configuration, network and LLM behavior seen by
one orchestration call. Each `Except String _` field models a call that
either returns or raises. -/
structure Oracle where
  /-- `settings.RAPIDAPI_KEY` (`none`/empty is falsy). -/
  rapidapiKey : Option String := none
  /-- `_get_destination_id` result: its own exceptions and non-200 replies
  already yield `none` inside that helper. -/
  destId : String → Option String := fun _ => none
  /-- The `/v1/hotels/search` HTTP call, keyed by destination id. -/
  hotelResponse : String → HttpOutcome := fun _ => HttpOutcome.exc "unreachable"
  /-- `date.today()`. -/
  today : PyDate := ⟨2024, 1, 1⟩
  /-- `BaseAgent.call_ai` → `ai_provider.generate`: content or a raised
  `ProviderError`. -/
  llm : List AIMessage → String → Except String String := fun _ _ => Except.error "ProviderError"
  /-- `provider.chat` used by `_handle_general`. -/
  chat : List AIMessage → String → Except String String := fun _ _ => Except.error "ProviderError"
  /-- `google_maps.search_restaurants`. -/
  restaurants : String → Option String → Nat → List PlaceResult := fun _ _ _ => []
  /-- `google_maps.search_attractions`. -/
  attractions : String → Nat → List PlaceResult := fun _ _ => []
  /-- Exception injected while an agent extracts entities / classifies its
  sub-intent (steps 1-2 of `process`); `none` = the step completes. -/
  stepExc : Option String := none
  /-- Exception injected in `_route_to_agent` before the agent call
  (e.g. `AgentContext` validation). -/
  routeExc : Option String := none
  /-- Exception injected around `workflow.ainvoke` in `process`. -/
  outerExc : Option String := none

/-- `BookingAPIClient._extract_amenities`. -/
def extract_amenities (h : RawHotel) : List String :=
  (if h.has_free_parking then ["Bãi đỗ xe miễn phí"] else [])
  ++ (if h.has_swimming_pool then ["Hồ bơi"] else [])
  ++ (if h.is_free_cancellable then ["Hủy miễn phí"] else [])

/-- Normalization of one raw hotel into a `HotelSearchResult` (the
construction inside the `for hotel in data.get("result", [])[:limit]`
loop). -/
def normalizeHotel (currency : String) (h : RawHotel) : HotelSearchResult :=
  { name := h.hotel_name.getD "Unknown"
    type := h.accommodation_type_name.getD "Hotel"
    address := h.address.getD ""
    latitude := h.latitude
    longitude := h.longitude
    price_per_night := h.min_total_price.getD 0
    currency := currency
    rating := some ((h.review_score.getD 0) / 2)
    review_count := h.review_nr
    image_url := h.main_photo_url
    amenities := extract_amenities h
    booking_url := h.url
    source := "booking.com" }

/-- `BookingAPIClient._get_mock_hotels`. -/
def get_mock_hotels (location : String) (check_in check_out : PyDate) :
    List HotelSearchResult :=
  let _nights := dateDiffDays check_out check_in
  [{ name := "Khách sạn Mường Thanh " ++ location
     type := "Khách sạn 4 sao"
     address := "123 Đường chính, " ++ location
     latitude := some (21.0285 : Rat)
     longitude := some (105.8542 : Rat)
     price_per_night := 1200000
     rating := some (4.2 : Rat)
     review_count := some 1250
     image_url := some "https://example.com/hotel1.jpg"
     amenities := ["Wifi miễn phí", "Hồ bơi", "Nhà hàng", "Phòng gym"]
     booking_url := some "https://booking.com/hotel/muongthanh"
     source := "mock" },
   { name := "Vinpearl Resort " ++ location
     type := "Resort 5 sao"
     address := "Bãi biển đẹp, " ++ location
     latitude := some (21.0295 : Rat)
     longitude := some (105.8552 : Rat)
     price_per_night := 3500000
     rating := some (4.8 : Rat)
     review_count := some 3200
     image_url := some "https://example.com/hotel2.jpg"
     amenities := ["Wifi miễn phí", "Hồ bơi vô cực", "Spa", "Sân golf"]
     booking_url := some "https://booking.com/hotel/vinpearl"
     source := "mock" },
   { name := "Little " ++ location ++ " Homestay"
     type := "Homestay"
     address := "45 Phố cổ, " ++ location
     latitude := some (21.0275 : Rat)
     longitude := some (105.8532 : Rat)
     price_per_night := 450000
     rating := some (4.5 : Rat)
     review_count := some 890
     image_url := some "https://example.com/hotel3.jpg"
     amenities := ["Wifi miễn phí", "Bếp chung", "Sân thượng"]
     booking_url := some "https://booking.com/hotel/littlehomestay"
     source := "mock" }]

/-- `BookingAPIClient.search_hotels` (also the module-level `search_hotels`
convenience function, which forwards to it). The `check_in`/`check_out`,
`adults`, `rooms` and `currency` arguments only flow into the request and
the mock records, as in the source. -/
def search_hotels (o : Oracle) (location : String) (check_in check_out : PyDate)
    (adults rooms : Int) (currency : String) (limit : Nat) :
    List HotelSearchResult :=
  let _ := adults
  let _ := rooms
  if (o.rapidapiKey.getD "") = "" then get_mock_hotels location check_in check_out
  else
    match o.destId location with
    | none => get_mock_hotels location check_in check_out
    | some dest_id =>
        match o.hotelResponse dest_id with
        | HttpOutcome.exc _ => get_mock_hotels location check_in check_out
        | HttpOutcome.response status result =>
            if status ≠ 200 then get_mock_hotels location check_in check_out
            else (result.take limit).map (normalizeHotel currency)

/-! ## C6 -/

/-- A concrete oracle with no API key configured. -/
def oracleNoKey : Oracle := {}

/-- C6 counterexample: with missing credentials (no RapidAPI key) the hotel
search does NOT return an empty list — it returns the three fabricated mock
hotel records, so the responder takes its results branch with fabricated
data rather than the no-results branch. -/
theorem search_hotels_failure_not_empty :
    (search_hotels oracleNoKey "Đà Nẵng" ⟨2024, 1, 1⟩ ⟨2024, 1, 3⟩ 2 1 "VND" 5).length = 3
    ∧ search_hotels oracleNoKey "Đà Nẵng" ⟨2024, 1, 1⟩ ⟨2024, 1, 3⟩ 2 1 "VND" 5 ≠ []
    ∧ (search_hotels oracleNoKey "Đà Nẵng" ⟨2024, 1, 1⟩ ⟨2024, 1, 3⟩ 2 1 "VND" 5).map
        HotelSearchResult.source = ["mock", "mock", "mock"] := by
  refine ⟨rfl, ?_, rfl⟩
  intro h
  have hlen : (search_hotels oracleNoKey "Đà Nẵng" ⟨2024, 1, 1⟩ ⟨2024, 1, 3⟩ 2 1 "VND" 5).length = 3 := rfl
  rw [h] at hlen
  exact absurd hlen (by decide)

/-- C6 (amended): on every failure path — missing credentials, unresolved
destination, an exception from the search call, or a non-200 response — the
hotel search returns the fixed three-item mock hotel list (source "mock")
for the requested location, never an empty list, never a propagated
exception, and never live results. -/
theorem search_hotels_failure_returns_mocks (o : Oracle) (location : String)
    (check_in check_out : PyDate) (adults rooms : Nat) (currency : String)
    (limit : Nat)
    (hfail : (o.rapidapiKey.getD "") = ""
      ∨ o.destId location = none
      ∨ (∃ d, o.destId location = some d ∧ ∃ e, o.hotelResponse d = HttpOutcome.exc e)
      ∨ (∃ d, o.destId location = some d
          ∧ ∃ s r, o.hotelResponse d = HttpOutcome.response s r ∧ s ≠ 200)) :
    search_hotels o location check_in check_out adults rooms currency limit
      = get_mock_hotels location check_in check_out
    ∧ (get_mock_hotels location check_in check_out).length = 3
    ∧ (get_mock_hotels location check_in check_out).map HotelSearchResult.source
        = ["mock", "mock", "mock"] := by
  refine ⟨?_, rfl, rfl⟩
  rcases hfail with hkey | hdest | ⟨d, hd, e, he⟩ | ⟨d, hd, s, r, hr, hs⟩
  · simp [search_hotels, hkey]
  · by_cases hkey : (o.rapidapiKey.getD "") = ""
    · simp [search_hotels, hkey]
    · simp [search_hotels, hkey, hdest]
  · by_cases hkey : (o.rapidapiKey.getD "") = ""
    · simp [search_hotels, hkey]
    · simp [search_hotels, hkey, hd, he]
  · by_cases hkey : (o.rapidapiKey.getD "") = ""
    · simp [search_hotels, hkey]
    · simp [search_hotels, hkey, hd, hr, hs]

theorem search_hotels_failure_returns_mocks_witness :
    ((oracleNoKey.rapidapiKey.getD "") = "")
    ∧ search_hotels oracleNoKey "Hội An" ⟨2024, 5, 1⟩ ⟨2024, 5, 4⟩ 2 1 "VND" 5
        = get_mock_hotels "Hội An" ⟨2024, 5, 1⟩ ⟨2024, 5, 4⟩ :=
  ⟨by decide,
   (search_hotels_failure_returns_mocks oracleNoKey "Hội An" ⟨2024, 5, 1⟩ ⟨2024, 5, 4⟩
     2 1 "VND" 5 (Or.inl (by decide))).1⟩

/-! ## Agent base types (`agents/base.py`) -/

/-- The structured payloads the agents place in `AgentResponse.data`, one
constructor per `data={...}` site; each carries the records the dict is
built from. -/
inductive AgentData
  | accommodations (hotels : List HotelSearchResult)
  | restaurants (places : List PlaceResult)
  | attractions (places : List PlaceResult)
  | activities (places : List PlaceResult)
  | transport_options (category : String)
  | local_transport (category : String)
  | budget_estimate (e : BudgetEstimates)
  | budget_breakdown (accommodation food transport activities misc : Int)
deriving DecidableEq, Repr

/-- `AgentResponse` of `agents/base.py`. It defines NO `actions` field —
accessing `.actions` on it raises `AttributeError` (relevant in
`_route_to_agent`). -/
structure AgentResponse where
  message : String
  agent_type : String
  data : Option AgentData := none
  suggestions : List String := []
  requires_followup : Bool := false
  next_agent : Option String := none
  metadata : List (String × String) := []
deriving DecidableEq, Repr

/-- `AgentContext` of `agents/base.py` (`user_id : int`). -/
structure AgentContext where
  user_id : Int
  trip_id : Option Int := none
  conversation_id : Option Int := none
  message : String
  conversation_history : List AIMessage := []
  trip_data : Option TripData := none
  user_preferences : Option (List (String × String)) := none
deriving DecidableEq, Repr

/-- `BaseAgent.format_conversation_history`: keep the most recent
`max_messages` entries (role/content re-wrapping is the identity here). -/
def format_conversation_history (history : List AIMessage) (max_messages : Nat) :
    List AIMessage :=
  if history.length > max_messages then history.drop (history.length - max_messages)
  else history

/-- `BaseAgent.call_ai`: forwards to the provider and re-raises its
exceptions. -/
def call_ai (o : Oracle) (messages : List AIMessage) (system_prompt : String) :
    Except String String :=
  o.llm messages system_prompt

/-- An exception injection point: `none` passes, `some e` raises. -/
def raiseIf : Option String → Except String Unit
  | some e => Except.error e
  | none => Except.ok ()

/-- Chunks of `size` characters (`l[i:i+size]` for `i in range(0, len, size)`).
The fuel starts at the list length and only bounds the recursion. -/
def chunkList (size : Nat) : Nat → List Char → List (List Char)
  | 0, _ => []
  | _, [] => []
  | fuel + 1, l => l.take size :: chunkList size fuel (l.drop size)

/-- Python `"{:,}".format(n)` — decimal digits in groups of three. -/
def commaSepNat (n : Nat) : String :=
  let rev := (toString n).data.reverse
  ⟨(List.intercalate [','] (chunkList 3 rev.length rev)).reverse⟩

/-- `"{:,.0f}".format(i)` on an integral value. -/
def commaSepInt (i : Int) : String :=
  if i < 0 then "-" ++ commaSepNat i.natAbs else commaSepNat i.natAbs

/-- The `entities.get("locations", [""])[0] or (context.trip_data.get(
"destination", "") if context.trip_data else "")` idiom shared by the
agents (Python parses it as `first or (dict-lookup if ... else "")`, with
`""` falsy). -/
def entity_location (entities : ExtractedEntities) (trip : Option TripData) : String :=
  let loc0 := (entities.locations.getD [""]).headD ""
  if loc0 = "" then
    match trip with
    | some t => t.destination.getD ""
    | none => ""
  else loc0

/-! ## Budget agent (`agents/budget_agent.py`)

The fixed prompt-template texts of `prompts/base_prompts.py` are held as
header constants (their exact wording feeds only the LLM oracle, which is
universally quantified in every theorem below); the context blocks the
agents append to them are embedded in full. -/

def budgetPromptHeader : String :=
  "Bạn là chuyên gia tư vấn ngân sách du lịch tại Việt Nam."

/-- `get_budget_system_prompt(context_info)`. -/
def get_budget_system_prompt (context_info : String) : String :=
  budgetPromptHeader ++ context_info

/-- `BudgetAgent.get_system_prompt`. -/
def budget_system_prompt (ctx : AgentContext) : String :=
  match ctx.trip_data with
  | none => get_budget_system_prompt ""
  | some t => get_budget_system_prompt
      ("\nThông tin chuyến đi:\n- Điểm đến: " ++ t.destination.getD "Chưa xác định"
        ++ "\n- Số ngày: " ++ toString (calculate_days t)
        ++ "\n- Số người: " ++ toString (t.travelers_count.getD 1)
        ++ "\n- Ngân sách tổng: " ++ commaSepInt (t.budget.getD 0) ++ " VND\n")

/-- `BudgetAgent._format_estimates`. -/
def format_estimates (e : BudgetEstimates) : String :=
  "Chỗ ở (trung bình): " ++ commaSepInt e.accommodation_mid_range.total
    ++ " VND (" ++ commaSepInt e.accommodation_mid_range.per_night ++ "/đêm)\n"
  ++ "Ăn uống: " ++ commaSepInt e.food_mid_range.total
    ++ " VND (" ++ commaSepInt e.food_mid_range.per_day ++ "/ngày/người)\n"
  ++ "Di chuyển: " ++ commaSepInt e.transport.local_total ++ " VND\n"
  ++ "Tham quan: " ++ commaSepInt e.activities.total ++ " VND"

/-- `BudgetAgent._estimate_budget`. -/
def budget_estimate_branch (o : Oracle) (ctx : AgentContext) :
    Except String AgentResponse := do
  let days := match ctx.trip_data with | some t => calculate_days t | none => 3
  let travelers := match ctx.trip_data with
    | some t => t.travelers_count.getD 1
    | none => 1
  let estimates := calculate_estimates days travelers
  let estimates_info := format_estimates estimates
  let messages := format_conversation_history ctx.conversation_history 20
    ++ [⟨"user", ctx.message ++ "\n\nƯớc tính chi phí:\n" ++ estimates_info⟩]
  let content ← call_ai o messages (budget_system_prompt ctx)
  pure { message := content
         agent_type := "budget"
         data := some (AgentData.budget_estimate estimates)
         suggestions := ["Chi tiết từng hạng mục", "Cách tiết kiệm", "Phân bổ ngân sách"] }

/-- `BudgetAgent._optimize_budget`. -/
def budget_optimize_branch (o : Oracle) (ctx : AgentContext) :
    Except String AgentResponse := do
  let messages := format_conversation_history ctx.conversation_history 20
    ++ [⟨"user", ctx.message⟩]
  let system_prompt := budget_system_prompt ctx
    ++ "\n\nKhi tư vấn tiết kiệm, gợi ý:\n1. Đặt phòng sớm để có giá tốt\n"
    ++ "2. Ăn ở quán địa phương thay vì nhà hàng du lịch\n"
    ++ "3. Dùng xe bus/grab pool thay vì taxi riêng\n"
    ++ "4. Mua vé combo cho nhiều điểm tham quan\n"
    ++ "5. Tránh mùa cao điểm nếu có thể\n"
  let content ← call_ai o messages system_prompt
  pure { message := content
         agent_type := "budget"
         suggestions := ["Áp dụng gợi ý", "Xem chi phí mới", "Tìm deal khách sạn"] }

/-- `BudgetAgent._budget_breakdown`; `int(total * frac)` is embedded as the
equivalent integer computation for the in-range budgets of the source. -/
def budget_breakdown_branch (o : Oracle) (ctx : AgentContext) :
    Except String AgentResponse := do
  let total_budget := match ctx.trip_data with
    | some t => t.budget.getD 5000000
    | none => 5000000
  let acc := Int.tdiv (total_budget * 35) 100
  let food := Int.tdiv (total_budget * 25) 100
  let transport := Int.tdiv (total_budget * 20) 100
  let activities := Int.tdiv (total_budget * 15) 100
  let misc := Int.tdiv (total_budget * 5) 100
  let breakdown_info :=
    "\nPhân bổ ngân sách " ++ commaSepInt total_budget ++ " VND:\n- Chỗ ở: "
    ++ commaSepInt acc ++ " VND (35%)\n- Ăn uống: " ++ commaSepInt food
    ++ " VND (25%)\n- Di chuyển: " ++ commaSepInt transport
    ++ " VND (20%)\n- Tham quan: " ++ commaSepInt activities
    ++ " VND (15%)\n- Dự phòng: " ++ commaSepInt misc ++ " VND (5%)\n"
  let messages := format_conversation_history ctx.conversation_history 20
    ++ [⟨"user", ctx.message ++ "\n\n" ++ breakdown_info⟩]
  let content ← call_ai o messages (budget_system_prompt ctx)
  pure { message := content
         agent_type := "budget"
         data := some (AgentData.budget_breakdown acc food transport activities misc)
         suggestions := ["Điều chỉnh tỷ lệ", "Xem chi tiết", "Ước tính thực tế"] }

/-- `BudgetAgent._handle_general_query`. -/
def budget_general_branch (o : Oracle) (ctx : AgentContext) :
    Except String AgentResponse := do
  let messages := format_conversation_history ctx.conversation_history 20
    ++ [⟨"user", ctx.message⟩]
  let content ← call_ai o messages (budget_system_prompt ctx)
  pure { message := content
         agent_type := "budget"
         suggestions := ["Ước tính chi phí", "Phân bổ ngân sách", "Mẹo tiết kiệm"] }

/-- The canned reply of `BudgetAgent.process`'s `except` handler. -/
def budget_canned : AgentResponse :=
  { message := "Xin lỗi, tôi gặp sự cố khi tính toán ngân sách. Bạn có thể thử lại?"
    agent_type := "budget"
    suggestions := ["Ước tính chi phí", "Phân bổ ngân sách"] }

/-- The `try` block of `BudgetAgent.process` (steps 1-3). -/
def budget_process_body (o : Oracle) (ctx : AgentContext) :
    Except String AgentResponse := do
  (raiseIf o.stepExc)
  let _entities := extractEntities ctx.message
  let intent := determine_budget_intent ctx.message
  if intent = "estimate" then budget_estimate_branch o ctx
  else if intent = "optimize" then budget_optimize_branch o ctx
  else if intent = "breakdown" then budget_breakdown_branch o ctx
  else budget_general_branch o ctx

/-- `BudgetAgent.process`: the `try` body with its all-catching `except`. -/
def budget_process (o : Oracle) (ctx : AgentContext) : AgentResponse :=
  match budget_process_body o ctx with
  | Except.ok r => r
  | Except.error _ => budget_canned

/-! ## Accommodation agent (`agents/accommodation_agent.py`) -/

def accommodationPromptHeader : String :=
  "Bạn là chuyên gia tư vấn khách sạn và chỗ ở tại Việt Nam."

def get_accommodation_system_prompt (context_info : String) : String :=
  accommodationPromptHeader ++ context_info

/-- `AccommodationAgent.get_system_prompt`. -/
def accommodation_system_prompt (ctx : AgentContext) : String :=
  match ctx.trip_data with
  | none => get_accommodation_system_prompt ""
  | some t => get_accommodation_system_prompt
      ("\nThông tin chuyến đi hiện tại:\n- Điểm đến: " ++ t.destination.getD "Chưa xác định"
        ++ "\n- Ngày đi: " ++ t.start_date.getD "Chưa xác định"
        ++ "\n- Ngày về: " ++ t.end_date.getD "Chưa xác định"
        ++ "\n- Số người: " ++ toString (t.travelers_count.getD 1)
        ++ "\n- Ngân sách: "
        ++ (match t.budget with
            | some b => toString b
            | none => "Chưa xác định") ++ " VND\n")

/-- `AccommodationAgent._can_perform_search`: at least a location, from the
entities or the trip snapshot (`bool` of possibly-missing values). -/
def can_perform_search (ctx : AgentContext) (entities : ExtractedEntities) : Bool :=
  let has_location := match entities.locations with
    | some l => !l.isEmpty
    | none => false
  if !has_location then
    match ctx.trip_data with
    | some t => (t.destination.getD "") ≠ ""
    | none => false
  else has_location

/-- `AccommodationAgent._search_hotels`. The ISO parses of the trip dates
model `date.fromisoformat`, whose `ValueError` on malformed input escapes to
`process`'s handler; a missing date falls back to `date.today()`. -/
def accommodation_search_step (o : Oracle) (ctx : AgentContext)
    (entities : ExtractedEntities) : Except String (List HotelSearchResult) := do
  let location := entity_location entities ctx.trip_data
  let check_in ← match ctx.trip_data with
    | some t => match t.start_date with
      | some s => (match parseIsoDate s with
        | some d => Except.ok d
        | none => Except.error "ValueError: invalid isoformat string")
      | none => Except.ok o.today
    | none => Except.ok o.today
  let check_out ← match ctx.trip_data with
    | some t => match t.end_date with
      | some s => (match parseIsoDate s with
        | some d => Except.ok d
        | none => Except.error "ValueError: invalid isoformat string")
      | none => Except.ok o.today
    | none => Except.ok o.today
  let travelers : Int := match entities.travelers with
    | some n =>
        if n = 0 then
          match ctx.trip_data with
          | some t => t.travelers_count.getD 2
          | none => 2
        else Int.ofNat n
    | none =>
        match ctx.trip_data with
        | some t => t.travelers_count.getD 2
        | none => 2
  Except.ok (search_hotels o location check_in check_out travelers 1 "VND" 5)

/-- `AccommodationAgent._format_hotels_for_ai` (the numeric formatting of
prices and ratings feeds only the LLM oracle). -/
def format_hotels_for_ai (hotels : List HotelSearchResult) : String :=
  String.intercalate "\n" ((List.enumFrom 1 hotels).map (fun p =>
    toString p.1 ++ ". " ++ p.2.name
    ++ "\n   - Loại: " ++ p.2.type
    ++ "\n   - Giá: " ++ commaSepInt p.2.price_per_night.floor ++ " VND/đêm"
    ++ "\n   - Đánh giá: " ++ toString (p.2.rating.getD 0)
      ++ "/5 (" ++ (match p.2.review_count with
        | some n => toString n
        | none => "None") ++ " reviews)"
    ++ "\n   - Địa chỉ: " ++ p.2.address
    ++ "\n   - Tiện nghi: "
      ++ (if p.2.amenities.isEmpty then "N/A"
          else String.intercalate ", " p.2.amenities) ++ "\n"))

/-- `AccommodationAgent._generate_hotel_response`. -/
def accommodation_hotel_response (o : Oracle) (ctx : AgentContext)
    (hotels : List HotelSearchResult) : Except String AgentResponse := do
  let hotels_info := format_hotels_for_ai hotels
  let messages := format_conversation_history ctx.conversation_history 20
    ++ [⟨"user", ctx.message ++ "\n\nKết quả tìm kiếm khách sạn:\n" ++ hotels_info⟩]
  let content ← call_ai o messages (accommodation_system_prompt ctx)
  pure { message := content
         agent_type := "accommodation"
         data := some (AgentData.accommodations hotels)
         suggestions := ["Xem chi tiết khách sạn này", "Tìm khách sạn khác", "Đặt phòng ngay"] }

/-- `AccommodationAgent._generate_info_gathering_response`. -/
def accommodation_info_gathering (o : Oracle) (ctx : AgentContext) :
    Except String AgentResponse := do
  let messages := format_conversation_history ctx.conversation_history 20
    ++ [⟨"user", ctx.message⟩]
  let system_prompt := accommodation_system_prompt ctx
    ++ "\n\nNgười dùng chưa cung cấp đủ thông tin để tìm khách sạn.\n"
    ++ "Hãy hỏi thêm về:\n- Địa điểm muốn ở\n- Ngày check-in và check-out\n"
    ++ "- Số lượng người\n- Ngân sách\n- Loại chỗ ở ưa thích\n\n"
    ++ "Hỏi tự nhiên và thân thiện, không liệt kê tất cả cùng lúc."
  let content ← call_ai o messages system_prompt
  pure { message := content
         agent_type := "accommodation"
         requires_followup := true
         suggestions := ["Tôi muốn ở khách sạn 4 sao", "Ngân sách khoảng 1 triệu/đêm",
                         "Cần gần trung tâm"] }

/-- `AccommodationAgent._generate_clarification_response` (no LLM call). -/
def accommodation_clarification : AgentResponse :=
  { message := "Tôi không tìm thấy khách sạn phù hợp với yêu cầu của bạn. "
      ++ "Bạn có thể thử:\n- Mở rộng phạm vi giá\n- Chọn khu vực khác\n- Thay đổi ngày lưu trú"
    agent_type := "accommodation"
    suggestions := ["Tăng ngân sách", "Tìm ở khu vực khác", "Đổi ngày"] }

/-- The canned reply of `AccommodationAgent.process`'s `except` handler. -/
def accommodation_canned : AgentResponse :=
  { message := "Xin lỗi, tôi gặp sự cố khi tìm kiếm khách sạn. Bạn có thể thử lại được không?"
    agent_type := "accommodation"
    suggestions := ["Thử tìm kiếm lại", "Thay đổi điều kiện tìm kiếm"] }

/-- The `try` block of `AccommodationAgent.process`. -/
def accommodation_process_body (o : Oracle) (ctx : AgentContext) :
    Except String AgentResponse := do
  (raiseIf o.stepExc)
  let entities := extractEntities ctx.message
  let can_search := can_perform_search ctx entities
  if can_search then do
    let hotels ← accommodation_search_step o ctx entities
    if !hotels.isEmpty then accommodation_hotel_response o ctx hotels
    else pure accommodation_clarification
  else accommodation_info_gathering o ctx

/-- `AccommodationAgent.process`. -/
def accommodation_process (o : Oracle) (ctx : AgentContext) : AgentResponse :=
  match accommodation_process_body o ctx with
  | Except.ok r => r
  | Except.error _ => accommodation_canned

/-! ## Food agent (`agents/food_agent.py`) -/

def restaurantKeywords : List String :=
  ["nhà hàng", "quán ăn", "quán", "ăn ở đâu", "chỗ ăn", "đi ăn", "restaurant", "đặt bàn"]

def dishKeywords : List String :=
  ["món gì", "ăn gì", "đặc sản", "nên thử", "món ngon", "phải ăn", "must try", "specialty"]

/-- `FoodAgent._determine_intent`. -/
def determine_food_intent (message : String) : String :=
  let ml := strLower message
  if restaurantKeywords.any (fun kw => strIn kw ml) then "search_restaurant"
  else if dishKeywords.any (fun kw => strIn kw ml) then "recommend_dish"
  else "general"

/-- `FoodAgent._extract_cuisine_type` (keyword → cuisine, insertion order). -/
def cuisineKeywords : List (String × String) :=
  [("phở", "phở"), ("bún", "bún"), ("cơm", "cơm"), ("hải sản", "hải sản"),
   ("chay", "chay"), ("nướng", "nướng"), ("lẩu", "lẩu")]

def extract_cuisine_type (message : String) : Option String :=
  (cuisineKeywords.find? (fun p => strIn p.1 (strLower message))).map Prod.snd

def foodPromptHeader : String :=
  "Bạn là chuyên gia ẩm thực Việt Nam."

/-- `FoodAgent.get_system_prompt` (the regional-specialty block feeds only
the LLM oracle and is folded into the destination line). -/
def food_system_prompt (ctx : AgentContext) : String :=
  match ctx.trip_data with
  | none => foodPromptHeader
  | some t => foodPromptHeader ++ "\nThông tin chuyến đi:\n- Địa điểm: "
      ++ t.destination.getD ""
      ++ "\n- Số người: " ++ toString (t.travelers_count.getD 1) ++ "\n"

/-- `FoodAgent._search_restaurants`. -/
def food_search_restaurants (o : Oracle) (ctx : AgentContext)
    (entities : ExtractedEntities) : List PlaceResult :=
  let location := entity_location entities ctx.trip_data
  if location = "" then []
  else o.restaurants location (extract_cuisine_type ctx.message) 5

/-- `FoodAgent._generate_restaurant_response` (empty results fall through to
the general branch). -/
def food_restaurant_response (o : Oracle) (ctx : AgentContext)
    (places : List PlaceResult) : Except String AgentResponse := do
  let messages := format_conversation_history ctx.conversation_history 20
    ++ [⟨"user", ctx.message ++ "\n\nKết quả tìm kiếm:\n"⟩]
  let content ← call_ai o messages (food_system_prompt ctx)
  pure { message := content
         agent_type := "food"
         data := some (AgentData.restaurants places)
         suggestions := ["Xem thêm nhà hàng", "Tìm món đặc sản", "Quán ăn đường phố"] }

/-- `FoodAgent._generate_dish_recommendation`. -/
def food_dish_response (o : Oracle) (ctx : AgentContext) :
    Except String AgentResponse := do
  let messages := format_conversation_history ctx.conversation_history 20
    ++ [⟨"user", ctx.message⟩]
  let content ← call_ai o messages (food_system_prompt ctx)
  pure { message := content
         agent_type := "food"
         suggestions := ["Tìm nhà hàng phục vụ món này", "Món ăn khác", "Quán ăn đường phố"] }

/-- `FoodAgent._generate_general_response`. -/
def food_general_response (o : Oracle) (ctx : AgentContext) :
    Except String AgentResponse := do
  let messages := format_conversation_history ctx.conversation_history 20
    ++ [⟨"user", ctx.message⟩]
  let content ← call_ai o messages (food_system_prompt ctx)
  pure { message := content
         agent_type := "food"
         suggestions := ["Tìm nhà hàng gần đây", "Gợi ý món đặc sản", "Quán ăn bình dân"] }

/-- The canned reply of `FoodAgent.process`'s `except` handler. -/
def food_canned : AgentResponse :=
  { message := "Xin lỗi, tôi gặp sự cố khi tìm kiếm nhà hàng. Bạn có thể thử lại được không?"
    agent_type := "food"
    suggestions := ["Thử tìm kiếm lại", "Hỏi về món ăn đặc sản"] }

/-- The `try` block of `FoodAgent.process`. -/
def food_process_body (o : Oracle) (ctx : AgentContext) :
    Except String AgentResponse := do
  (raiseIf o.stepExc)
  let entities := extractEntities ctx.message
  let intent := determine_food_intent ctx.message
  if intent = "search_restaurant" then do
    let places := food_search_restaurants o ctx entities
    if places.isEmpty then food_general_response o ctx
    else food_restaurant_response o ctx places
  else if intent = "recommend_dish" then food_dish_response o ctx
  else food_general_response o ctx

/-- `FoodAgent.process`. -/
def food_process (o : Oracle) (ctx : AgentContext) : AgentResponse :=
  match food_process_body o ctx with
  | Except.ok r => r
  | Except.error _ => food_canned

/-! ## Transport agent (`agents/transport_agent.py`) -/

def interCityKeywords : List String :=
  ["máy bay", "chuyến bay", "flight", "tàu", "xe khách", "từ", "đến", "liên tỉnh", "bus"]

def localTransportKeywords : List String :=
  ["grab", "taxi", "xe máy", "thuê xe", "nội thành", "di chuyển"]

/-- `TransportAgent._determine_transport_intent`. -/
def determine_transport_intent (message : String) : String :=
  let ml := strLower message
  if interCityKeywords.any (fun kw => strIn kw ml) then "inter_city"
  else if localTransportKeywords.any (fun kw => strIn kw ml) then "local"
  else "general"

def transportPromptHeader : String :=
  "Bạn là chuyên gia tư vấn phương tiện di chuyển tại Việt Nam."

def transport_system_prompt (ctx : AgentContext) : String :=
  match ctx.trip_data with
  | none => transportPromptHeader
  | some t => transportPromptHeader ++ "\nThông tin chuyến đi:\n- Ngày đi: "
      ++ t.start_date.getD "Chưa xác định"
      ++ "\n- Ngày về: " ++ t.end_date.getD "Chưa xác định"
      ++ "\n- Số người: " ++ toString (t.travelers_count.getD 1) ++ "\n"

/-- The formatted `TRANSPORT_OPTIONS[category]` table (text for the LLM
oracle only). -/
def format_transport_options (category : String) : String :=
  "Các phương tiện (" ++ category ++ ")"

/-- `TransportAgent._handle_inter_city`. -/
def transport_inter_city (o : Oracle) (ctx : AgentContext) :
    Except String AgentResponse := do
  let transport_info := format_transport_options "inter_city"
  let messages := format_conversation_history ctx.conversation_history 20
    ++ [⟨"user", ctx.message ++ "\n\nThông tin phương tiện:\n" ++ transport_info⟩]
  let content ← call_ai o messages (transport_system_prompt ctx)
  pure { message := content
         agent_type := "transport"
         data := some (AgentData.transport_options "inter_city")
         suggestions := ["So sánh giá vé", "Đặt vé máy bay", "Tìm xe khách"] }

/-- `TransportAgent._handle_local_transport`. -/
def transport_local (o : Oracle) (ctx : AgentContext) :
    Except String AgentResponse := do
  let transport_info := format_transport_options "local"
  let messages := format_conversation_history ctx.conversation_history 20
    ++ [⟨"user", ctx.message ++ "\n\nPhương tiện nội thành:\n" ++ transport_info⟩]
  let content ← call_ai o messages (transport_system_prompt ctx)
  pure { message := content
         agent_type := "transport"
         data := some (AgentData.local_transport "local")
         suggestions := ["Thuê xe máy", "Giá Grab", "Taxi sân bay"] }

/-- `TransportAgent._handle_general_query`. -/
def transport_general (o : Oracle) (ctx : AgentContext) :
    Except String AgentResponse := do
  let messages := format_conversation_history ctx.conversation_history 20
    ++ [⟨"user", ctx.message⟩]
  let content ← call_ai o messages (transport_system_prompt ctx)
  pure { message := content
         agent_type := "transport"
         suggestions := ["Di chuyển liên tỉnh", "Phương tiện nội thành", "Thuê xe"] }

/-- The canned reply of `TransportAgent.process`'s `except` handler. -/
def transport_canned : AgentResponse :=
  { message := "Xin lỗi, tôi gặp sự cố khi tìm kiếm phương tiện. Bạn có thể thử lại?"
    agent_type := "transport"
    suggestions := ["Tìm chuyến bay", "Xe khách liên tỉnh", "Di chuyển nội thành"] }

/-- The `try` block of `TransportAgent.process`. -/
def transport_process_body (o : Oracle) (ctx : AgentContext) :
    Except String AgentResponse := do
  (raiseIf o.stepExc)
  let _entities := extractEntities ctx.message
  let intent := determine_transport_intent ctx.message
  if intent = "inter_city" then transport_inter_city o ctx
  else if intent = "local" then transport_local o ctx
  else transport_general o ctx

/-- `TransportAgent.process`. -/
def transport_process (o : Oracle) (ctx : AgentContext) : AgentResponse :=
  match transport_process_body o ctx with
  | Except.ok r => r
  | Except.error _ => transport_canned

/-! ## Itinerary agent (`agents/itinerary_agent.py`) -/

def createItineraryKeywords : List String :=
  ["lập lịch", "tạo lịch", "kế hoạch", "schedule", "itinerary", "plan"]

def modifyItineraryKeywords : List String :=
  ["thay đổi", "sửa", "đổi", "thêm", "bớt", "modify"]

def attractionKeywords : List String :=
  ["điểm tham quan", "đi đâu", "xem gì", "attraction", "visit"]

/-- `ItineraryAgent._determine_intent`. -/
def determine_itinerary_intent (message : String) : String :=
  let ml := strLower message
  if createItineraryKeywords.any (fun kw => strIn kw ml) then "create_itinerary"
  else if modifyItineraryKeywords.any (fun kw => strIn kw ml) then "modify_itinerary"
  else if attractionKeywords.any (fun kw => strIn kw ml) then "find_attractions"
  else "general"

def itineraryPromptHeader : String :=
  "Bạn là chuyên gia lập lịch trình du lịch tại Việt Nam."

def itinerary_system_prompt (ctx : AgentContext) : String :=
  match ctx.trip_data with
  | none => itineraryPromptHeader
  | some t => itineraryPromptHeader ++ "\nThông tin chuyến đi:\n- Điểm đến: "
      ++ t.destination.getD "Chưa xác định"
      ++ "\n- Số người: " ++ toString (t.travelers_count.getD 1) ++ "\n"

/-- `ItineraryAgent._create_itinerary`. -/
def itinerary_create (o : Oracle) (ctx : AgentContext)
    (entities : ExtractedEntities) : Except String AgentResponse := do
  let destination := entity_location entities ctx.trip_data
  let attractions := if destination ≠ "" then o.attractions destination 10 else []
  let attractions_info :=
    if attractions.isEmpty then ""
    else "\n\nĐiểm tham quan tìm được:\n"
      ++ String.intercalate "" ((List.enumFrom 1 attractions).map (fun p =>
          toString p.1 ++ ". " ++ p.2.name ++ " - " ++ p.2.address ++ "\n"))
  let messages := format_conversation_history ctx.conversation_history 20
    ++ [⟨"user", ctx.message ++ attractions_info⟩]
  let system_prompt := itinerary_system_prompt ctx
    ++ "\n\nKhi tạo lịch trình, hãy:\n1. Chia theo từng ngày\n"
    ++ "2. Sắp xếp các điểm gần nhau\n3. Dành thời gian cho ăn uống và nghỉ ngơi\n"
    ++ "4. Ghi rõ giờ bắt đầu và kết thúc mỗi hoạt động\n"
    ++ "5. Tính thời gian di chuyển giữa các điểm\n"
  let content ← call_ai o messages system_prompt
  let activities_data := attractions.take 5
  pure { message := content
         agent_type := "itinerary"
         data := if activities_data.isEmpty then none
           else some (AgentData.activities activities_data)
         suggestions := ["Thêm hoạt động", "Điều chỉnh thời gian", "Xem bản đồ"] }

/-- `ItineraryAgent._modify_itinerary`. -/
def itinerary_modify (o : Oracle) (ctx : AgentContext) :
    Except String AgentResponse := do
  let messages := format_conversation_history ctx.conversation_history 20
    ++ [⟨"user", ctx.message⟩]
  let content ← call_ai o messages (itinerary_system_prompt ctx)
  pure { message := content
         agent_type := "itinerary"
         suggestions := ["Xem lịch trình mới", "Thay đổi tiếp", "Hoàn tất"] }

/-- `ItineraryAgent._handle_general_query`. -/
def itinerary_general (o : Oracle) (ctx : AgentContext) :
    Except String AgentResponse := do
  let messages := format_conversation_history ctx.conversation_history 20
    ++ [⟨"user", ctx.message⟩]
  let content ← call_ai o messages (itinerary_system_prompt ctx)
  pure { message := content
         agent_type := "itinerary"
         suggestions := ["Tạo lịch trình", "Tìm điểm tham quan", "Gợi ý hoạt động"] }

/-- `ItineraryAgent._find_attractions` (empty results fall through to the
general branch). -/
def itinerary_find_attractions (o : Oracle) (ctx : AgentContext)
    (entities : ExtractedEntities) : Except String AgentResponse := do
  let destination := entity_location entities ctx.trip_data
  let attractions := if destination ≠ "" then o.attractions destination 8 else []
  if !attractions.isEmpty then do
    let attractions_info := "Điểm tham quan tại " ++ destination ++ ":\n"
      ++ String.intercalate "" ((List.enumFrom 1 attractions).map (fun p =>
          toString p.1 ++ ". " ++ p.2.name ++ "\n   - " ++ p.2.address ++ "\n\n"))
    let messages := format_conversation_history ctx.conversation_history 20
      ++ [⟨"user", ctx.message ++ "\n\n" ++ attractions_info⟩]
    let content ← call_ai o messages (itinerary_system_prompt ctx)
    pure { message := content
           agent_type := "itinerary"
           data := some (AgentData.attractions attractions)
           suggestions := ["Thêm vào lịch trình", "Tìm thêm", "Tạo lịch trình"] }
  else itinerary_general o ctx

/-- The canned reply of `ItineraryAgent.process`'s `except` handler. -/
def itinerary_canned : AgentResponse :=
  { message := "Xin lỗi, tôi gặp sự cố khi lập lịch trình. Bạn có thể thử lại?"
    agent_type := "itinerary"
    suggestions := ["Tạo lịch trình mới", "Tìm điểm tham quan"] }

/-- The `try` block of `ItineraryAgent.process`. -/
def itinerary_process_body (o : Oracle) (ctx : AgentContext) :
    Except String AgentResponse := do
  (raiseIf o.stepExc)
  let entities := extractEntities ctx.message
  let intent := determine_itinerary_intent ctx.message
  if intent = "create_itinerary" then itinerary_create o ctx entities
  else if intent = "modify_itinerary" then itinerary_modify o ctx
  else if intent = "find_attractions" then itinerary_find_attractions o ctx entities
  else itinerary_general o ctx

/-- `ItineraryAgent.process`. -/
def itinerary_process (o : Oracle) (ctx : AgentContext) : AgentResponse :=
  match itinerary_process_body o ctx with
  | Except.ok r => r
  | Except.error _ => itinerary_canned

/-! ## Orchestrator workflow (`agents/orchestrator.py`) -/

/-- The plain-dict reply stored in `state.response`; keys absent from a
given dict are `none`. -/
structure RespDict where
  message : String
  agent_type : String
  data : Option AgentData := none
  suggestions : Option (List String) := none
  actions : Option (List String) := none
deriving DecidableEq, Repr

/-- `OrchestratorState` (`user_id`/`trip_id` are strings here, unlike
`AgentContext`). -/
structure OrchestratorState where
  message : String
  user_id : String
  trip_id : Option String := none
  trip_data : Option TripData := none
  conversation_history : List AIMessage := []
  selected_agent : Option String := none
  response : Option RespDict := none
  error : Option String := none
deriving DecidableEq, Repr

/-- `MasterOrchestrator._classify_intent` as a state transformer. -/
def classify_intent (st : OrchestratorState) : OrchestratorState :=
  { st with selected_agent := some (classifySelected st.message) }

/-- `MasterOrchestrator._should_use_agent` (`state.selected_agent` is falsy
when `None` or empty). -/
def should_use_agent (st : OrchestratorState) : String :=
  match st.selected_agent with
  | some s => if s ≠ "" ∧ s ≠ AgentType.general.value then "agent" else "general"
  | none => "general"

/-- `self.agents` — the fixed dict from `AgentType` to agent `process`
(five entries; `dict.get` yields `none` otherwise). -/
def agents_map : AgentType → Option (Oracle → AgentContext → AgentResponse)
  | .accommodation => some accommodation_process
  | .food => some food_process
  | .transport => some transport_process
  | .itinerary => some itinerary_process
  | .budget => some budget_process
  | .general => none

/-- Pydantic's lax `str → int` coercion used when `AgentContext` is built
from the orchestrator's string ids; `none` models the `ValidationError`
raised on a non-numeric string. -/
def parse_int_string (s : String) : Option Int :=
  match s.data with
  | [] => none
  | '-' :: ds =>
      if !ds.isEmpty && ds.all Char.isDigit then some (-(Int.ofNat (pyInt ⟨ds⟩)))
      else none
  | ds =>
      if ds.all Char.isDigit then some (Int.ofNat (pyInt ⟨ds⟩)) else none

/-- The message of the `AttributeError` raised when `_route_to_agent`
evaluates `response.actions`. -/
def actionsAttributeError : String :=
  "AttributeError: 'AgentResponse' object has no attribute 'actions'"

/-- `MasterOrchestrator._route_to_agent`. Every branch of its `try` block
ends in the `except` handler: even when the selected agent's `process`
returns normally, building the `state.response` dict evaluates
`response.actions`, and `AgentResponse` defines no `actions` field, so
pydantic raises `AttributeError`, which the handler records as the
orchestration error (the field-by-field construction up to that point is
side-effect free). -/
def route_to_agent (o : Oracle) (st : OrchestratorState) : OrchestratorState :=
  match o.routeExc with
  | some e => { st with error := some e }
  | none =>
    match AgentType.fromValue (st.selected_agent.getD "") with
    | none => { st with error := some ("ValueError: '" ++ st.selected_agent.getD ""
        ++ "' is not a valid AgentType") }
    | some atype =>
      match agents_map atype with
      | none => { st with error := some ("Agent not found: " ++ st.selected_agent.getD "") }
      | some proc =>
        match parse_int_string st.user_id with
        | none => { st with error := some "ValidationError: user_id" }
        | some uid =>
          match st.trip_id with
          | some tid =>
            (match parse_int_string tid with
             | none => { st with error := some "ValidationError: trip_id" }
             | some tripId =>
               let ctx : AgentContext :=
                 { user_id := uid, trip_id := some tripId, message := st.message,
                   conversation_history := st.conversation_history,
                   trip_data := st.trip_data }
               let _resp := proc o ctx
               { st with error := some actionsAttributeError })
          | none =>
            let ctx : AgentContext :=
              { user_id := uid, trip_id := none, message := st.message,
                conversation_history := st.conversation_history,
                trip_data := st.trip_data }
            let _resp := proc o ctx
            { st with error := some actionsAttributeError }

/-- The static system prompt of `_handle_general` (text for the LLM oracle
only). -/
def general_system_prompt : String :=
  "Bạn là trợ lý du lịch Việt Nam thân thiện và hữu ích."

/-- `MasterOrchestrator._handle_general`. -/
def handle_general (o : Oracle) (st : OrchestratorState) : OrchestratorState :=
  let messages := st.conversation_history ++ [⟨"user", st.message⟩]
  match o.chat messages general_system_prompt with
  | Except.error e => { st with error := some e }
  | Except.ok content =>
      let rd : RespDict :=
        { message := content
          agent_type := "general"
          suggestions := some ["Tìm khách sạn", "Gợi ý món ăn", "Lập lịch trình",
                               "Tính ngân sách"] }
      { st with response := some rd }

/-- The canned dict `_process_response` substitutes on an orchestration
error without a reply. -/
def error_canned_dict : RespDict :=
  { message := "Xin lỗi, tôi gặp sự cố khi xử lý yêu cầu của bạn. Bạn có thể thử lại?"
    agent_type := "error"
    suggestions := some ["Thử lại", "Hỏi câu khác"] }

/-- Python truthiness of `state.error` (`None` and `""` are falsy). -/
def truthyError (st : OrchestratorState) : Bool :=
  match st.error with
  | some e => e != ""
  | none => false

/-- `MasterOrchestrator._process_response` (the finalize node). -/
def process_response (st : OrchestratorState) : OrchestratorState :=
  if truthyError st && st.response.isNone then
    { st with response := some error_canned_dict }
  else st

/-- The compiled LangGraph workflow: the node sequence
`classify → {route_to_agent | handle_general} → process_response`. -/
def run_workflow (o : Oracle) (st : OrchestratorState) : OrchestratorState :=
  let st1 := classify_intent st
  let st2 := if should_use_agent st1 = "agent" then route_to_agent o st1
             else handle_general o st1
  process_response st2

/-- The initial `OrchestratorState` built by `process`
(`conversation_history or []`). -/
def initial_state (message user_id : String) (trip_id : Option String)
    (trip_data : Option TripData) (conversation_history : Option (List AIMessage)) :
    OrchestratorState :=
  { message := message, user_id := user_id, trip_id := trip_id,
    trip_data := trip_data,
    conversation_history := conversation_history.getD [] }

/-- Extraction of the final reply from `final_state.get("response", {})`
with the `.get` key defaults of `process`; the `actions=...` kwarg the
source also passes is silently dropped by pydantic (`AgentResponse` has no
such field, extra keys are ignored). -/
def response_to_agent_response : Option RespDict → AgentResponse
  | some rd =>
      { message := rd.message
        agent_type := rd.agent_type
        data := rd.data
        suggestions := rd.suggestions.getD [] }
  | none => { message := "", agent_type := "unknown", data := none, suggestions := [] }

/-- `MasterOrchestrator.process`: build the initial state, run the
workflow, and convert the resulting response dict into an `AgentResponse`.
The outer `except` around `workflow.ainvoke` is the `outerExc` branch. -/
def orchestrator_process (o : Oracle) (message user_id : String)
    (trip_id : Option String) (trip_data : Option TripData)
    (conversation_history : Option (List AIMessage)) : AgentResponse :=
  match o.outerExc with
  | some _ =>
      { message := "Xin lỗi, có lỗi xảy ra. Vui lòng thử lại sau."
        agent_type := "error"
        suggestions := ["Thử lại"] }
  | none =>
      response_to_agent_response
        (run_workflow o
          (initial_state message user_id trip_id trip_data conversation_history)).response

/-! ## C3, C4, C5 -/

theorem str_append_ne_empty (s t : String) (hs : s ≠ "") : s ++ t ≠ "" := by
  intro h
  apply hs
  have hd : s.data ++ t.data = ([] : List Char) := congrArg String.data h
  have hsd : s.data = [] := (List.append_eq_nil.mp hd).1
  cases s with
  | mk d => exact congrArg String.mk hsd

theorem classifySelected_mem (msg : String) :
    classifySelected msg
      ∈ (["accommodation", "food", "transport", "itinerary", "budget", "general"] :
          List String) := by
  unfold classifySelected
  cases hm : maxKey (scoresFor (strLower msg)) with
  | none => decide
  | some a => cases a <;> decide

theorem route_to_agent_sets_error (o : Oracle) (st : OrchestratorState)
    (hr : ∀ e, o.routeExc = some e → e ≠ "") :
    (route_to_agent o st).response = st.response
      ∧ ∃ e, (route_to_agent o st).error = some e ∧ e ≠ "" := by
  unfold route_to_agent
  cases hx : o.routeExc with
  | some e => exact ⟨rfl, e, rfl, hr e hx⟩
  | none =>
    cases hv : AgentType.fromValue (st.selected_agent.getD "") with
    | none =>
        exact ⟨rfl, _, rfl, str_append_ne_empty _ _ (str_append_ne_empty _ _ (by decide))⟩
    | some atype =>
      cases atype
      all_goals first
      | exact ⟨rfl, _, rfl, str_append_ne_empty _ _ (by decide)⟩
      | (dsimp only
         cases hp : parse_int_string st.user_id with
         | none => exact ⟨rfl, _, rfl, by decide⟩
         | some uid =>
           dsimp only
           cases ht : st.trip_id with
           | none => exact ⟨rfl, _, rfl, by decide⟩
           | some tid =>
             dsimp only
             cases hq : parse_int_string tid with
             | none => exact ⟨rfl, _, rfl, by decide⟩
             | some tripId => exact ⟨rfl, _, rfl, by decide⟩)

theorem process_response_of_error (st : OrchestratorState) (e : String)
    (he : st.error = some e) (hne : e ≠ "") (hresp : st.response = none) :
    (process_response st).response = some error_canned_dict := by
  simp [process_response, truthyError, he, hresp, bne_iff_ne, hne]

theorem process_response_keeps_response (st : OrchestratorState) (rd : RespDict)
    (h : st.response = some rd) : (process_response st).response = some rd := by
  simp [process_response, h]

theorem run_workflow_agent_type (o : Oracle) (st : OrchestratorState)
    (hresp : st.response = none)
    (hr : ∀ e, o.routeExc = some e → e ≠ "")
    (hchat : ∀ msgs sys e, o.chat msgs sys = Except.error e → e ≠ "") :
    ∃ rd, (run_workflow o st).response = some rd
      ∧ rd.agent_type ∈ (["general", "error"] : List String) := by
  unfold run_workflow
  dsimp only
  by_cases hag : should_use_agent (classify_intent st) = "agent"
  · rw [if_pos hag]
    obtain ⟨hre, e, he, hne⟩ := route_to_agent_sets_error o (classify_intent st) hr
    have hresp1 : (route_to_agent o (classify_intent st)).response = none := by
      rw [hre]; exact hresp
    exact ⟨error_canned_dict, process_response_of_error _ e he hne hresp1, by decide⟩
  · rw [if_neg hag]
    cases hc : o.chat ((classify_intent st).conversation_history
        ++ [⟨"user", (classify_intent st).message⟩]) general_system_prompt with
    | ok content =>
        have hrsp : (handle_general o (classify_intent st)).response = some
            ({ message := content, agent_type := "general", suggestions := some ["Tìm khách sạn", "Gợi ý món ăn", "Lập lịch trình", "Tính ngân sách"] } : RespDict) := by
          simp [handle_general, hc]
        exact ⟨_, process_response_keeps_response _ _ hrsp, by simp⟩
    | error e =>
        have hne : e ≠ "" := hchat _ _ _ hc
        have he : (handle_general o (classify_intent st)).error = some e := by
          simp [handle_general, hc]
        have hresp1 : (handle_general o (classify_intent st)).response = none := by
          simp [handle_general, hc]; exact hresp
        exact ⟨error_canned_dict, process_response_of_error _ e he hne hresp1, by decide⟩

/-- C3: whatever the external behavior (hypotheses: exceptions stringify to
non-empty messages, as every exception reachable here does) and whatever the
input, the reply of `MasterOrchestrator.process` carries an `agent_type`
among the five responder identifiers and the fallbacks "general" and
"error" — never any other string. -/
theorem orchestrator_agent_type_known (o : Oracle) (message user_id : String)
    (trip_id : Option String) (trip_data : Option TripData)
    (history : Option (List AIMessage))
    (hroute : ∀ e, o.routeExc = some e → e ≠ "")
    (hchat : ∀ msgs sys e, o.chat msgs sys = Except.error e → e ≠ "") :
    (orchestrator_process o message user_id trip_id trip_data history).agent_type
      ∈ (["accommodation", "food", "transport", "itinerary", "budget",
          "general", "error"] : List String) := by
  unfold orchestrator_process
  cases ho : o.outerExc with
  | some e => simp
  | none =>
    obtain ⟨rd, hrd, hmem⟩ := run_workflow_agent_type o
      (initial_state message user_id trip_id trip_data history) rfl hroute hchat
    rw [hrd]
    simp only [response_to_agent_response]
    simp only [List.mem_cons, List.mem_singleton, List.not_mem_nil, or_false] at hmem ⊢
    rcases hmem with h | h <;> rw [h] <;> simp

theorem orchestrator_agent_type_known_witness :
    (orchestrator_process ({} : Oracle) "Tìm khách sạn ở Hà Nội" "1" none none none).agent_type
      ∈ (["accommodation", "food", "transport", "itinerary", "budget",
          "general", "error"] : List String) :=
  orchestrator_agent_type_known ({} : Oracle) "Tìm khách sạn ở Hà Nội" "1" none none none
    (fun e h => by cases h)
    (fun _ _ e h => by
      rw [show e = "ProviderError" from (Except.error.injEq _ _).mp h.symm]
      decide)

/-- C4: for every responder, every context and every external behavior, if
an exception is raised anywhere inside the `try` block of `process` (entity
extraction, sub-intent classification, the search step, or the LLM call),
then `process` returns that responder's canned apologetic reply — whose
`agent_type` is the responder's own identifier, whose message is non-empty,
and which carries 1–3 generic retry suggestions. `process` is a total
function of its oracle and context, so the exception never reaches the
caller. -/
theorem agent_process_catches_exceptions (o : Oracle) (ctx : AgentContext) :
    (∀ e, accommodation_process_body o ctx = Except.error e →
      accommodation_process o ctx = accommodation_canned)
    ∧ (∀ e, budget_process_body o ctx = Except.error e →
      budget_process o ctx = budget_canned)
    ∧ (∀ e, food_process_body o ctx = Except.error e →
      food_process o ctx = food_canned)
    ∧ (∀ e, transport_process_body o ctx = Except.error e →
      transport_process o ctx = transport_canned)
    ∧ (∀ e, itinerary_process_body o ctx = Except.error e →
      itinerary_process o ctx = itinerary_canned)
    ∧ (accommodation_canned.agent_type = "accommodation"
        ∧ accommodation_canned.message ≠ ""
        ∧ 1 ≤ accommodation_canned.suggestions.length
        ∧ accommodation_canned.suggestions.length ≤ 3)
    ∧ (budget_canned.agent_type = "budget" ∧ budget_canned.message ≠ ""
        ∧ 1 ≤ budget_canned.suggestions.length ∧ budget_canned.suggestions.length ≤ 3)
    ∧ (food_canned.agent_type = "food" ∧ food_canned.message ≠ ""
        ∧ 1 ≤ food_canned.suggestions.length ∧ food_canned.suggestions.length ≤ 3)
    ∧ (transport_canned.agent_type = "transport" ∧ transport_canned.message ≠ ""
        ∧ 1 ≤ transport_canned.suggestions.length ∧ transport_canned.suggestions.length ≤ 3)
    ∧ (itinerary_canned.agent_type = "itinerary" ∧ itinerary_canned.message ≠ ""
        ∧ 1 ≤ itinerary_canned.suggestions.length
        ∧ itinerary_canned.suggestions.length ≤ 3) := by
  refine ⟨?_, ?_, ?_, ?_, ?_, by decide, by decide, by decide, by decide, by decide⟩
  · intro e he; unfold accommodation_process; rw [he]
  · intro e he; unfold budget_process; rw [he]
  · intro e he; unfold food_process; rw [he]
  · intro e he; unfold transport_process; rw [he]
  · intro e he; unfold itinerary_process; rw [he]

/-- The context of the C4 witness. -/
def ctxProviderDown : AgentContext := { user_id := 7, message := "xin chào" }

theorem agent_process_catches_exceptions_witness :
    (accommodation_process_body ({} : Oracle) ctxProviderDown
        = Except.error "ProviderError"
      ∧ accommodation_process ({} : Oracle) ctxProviderDown = accommodation_canned)
    ∧ (budget_process_body ({} : Oracle) ctxProviderDown = Except.error "ProviderError"
      ∧ budget_process ({} : Oracle) ctxProviderDown = budget_canned) :=
  ⟨⟨by rfl,
    (agent_process_catches_exceptions ({} : Oracle) ctxProviderDown).1
      "ProviderError" (by rfl)⟩,
   ⟨by rfl,
    (agent_process_catches_exceptions ({} : Oracle) ctxProviderDown).2.1
      "ProviderError" (by rfl)⟩⟩

/-- C5: the finalize node `_process_response` substitutes the canned
"something went wrong, please retry" reply — `agent_type` "error", exactly
two generic suggestions, non-empty text — exactly when an orchestration
error (a truthy error string) is present and no reply was produced;
otherwise it passes the state through unchanged. Together with
`orchestrator_process` being a total function, every failure path of an
orchestration call ends in a well-formed reply, never in an escaping
exception. -/
theorem finalize_error_substitution (st : OrchestratorState) :
    (∀ e, st.error = some e → e ≠ "" → st.response = none →
      (process_response st).response = some error_canned_dict
        ∧ error_canned_dict.agent_type = "error"
        ∧ error_canned_dict.message ≠ ""
        ∧ (error_canned_dict.suggestions.getD []).length = 2)
    ∧ (∀ rd, st.response = some rd → process_response st = st)
    ∧ (st.error = none → process_response st = st) := by
  refine ⟨?_, ?_, ?_⟩
  · intro e he hne hresp
    exact ⟨process_response_of_error st e he hne hresp, by decide, by decide, by decide⟩
  · intro rd h
    simp [process_response, h]
  · intro h
    simp [process_response, truthyError, h]

/-- A state carrying an orchestration error and no reply. -/
def stFailed : OrchestratorState :=
  { message := "m", user_id := "1", error := some "boom" }

/-- A state carrying a produced reply. -/
def stReplied : OrchestratorState :=
  { message := "m", user_id := "1",
    response := some { message := "ok", agent_type := "general" } }

theorem finalize_error_substitution_witness :
    ((process_response stFailed).response = some error_canned_dict
      ∧ error_canned_dict.agent_type = "error")
    ∧ process_response stReplied = stReplied :=
  ⟨⟨((finalize_error_substitution stFailed).1 "boom" rfl (by decide) rfl).1,
    ((finalize_error_substitution stFailed).1 "boom" rfl (by decide) rfl).2.1⟩,
   (finalize_error_substitution stReplied).2.1
     { message := "ok", agent_type := "general" } rfl⟩

/-! ## Streaming endpoint (`api/v1/conversations.py`, `chat_stream`) -/

/-- The SSE events of `chat_stream.event_generator` (each is one
`data: {...}` frame, discriminated by its `type` key). -/
inductive StreamEvent
  | conversation_id (id : Int)
  | chunk (content : String)
  | metadata (agent_type : String) (suggestions actions : List String)
  | done (message_id : Int)
  | error_event (message : String)
deriving DecidableEq, Repr

/-- The happy path of `event_generator` after the orchestrator returned
`agent_response`: the conversation-id event, then the reply text in chunks
of 20 (`message_content[i:i + chunk_size]`), and then — in the source as
written — the construction of the `metadata` frame evaluates
`agent_response.actions`; `AgentResponse` defines no `actions` field, so
pydantic raises `AttributeError`, the generator's `except` handler emits a
single `error` frame, and the `metadata` and `done` frames (and the save of
the assistant message) are never reached. -/
def chat_stream_events (conv_id : Int) (agent_response : AgentResponse)
    (message_id : Int) : List StreamEvent :=
  let _ := message_id
  StreamEvent.conversation_id conv_id
    :: (chunkList 20 agent_response.message.data.length agent_response.message.data).map
        (fun c => StreamEvent.chunk ⟨c⟩)
    ++ [StreamEvent.error_event "'AgentResponse' object has no attribute 'actions'"]

/-- The event sequence the `metadata`/`done` code of `event_generator`
WOULD produce (the spec's intent), had `agent_response.actions` not raised:
chunks, one metadata frame, one done frame. -/
def chat_stream_events_intended (conv_id : Int) (agent_response : AgentResponse)
    (actions : List String) (message_id : Int) : List StreamEvent :=
  StreamEvent.conversation_id conv_id
    :: (chunkList 20 agent_response.message.data.length agent_response.message.data).map
        (fun c => StreamEvent.chunk ⟨c⟩)
    ++ [StreamEvent.metadata agent_response.agent_type agent_response.suggestions actions,
        StreamEvent.done message_id]

/-- Chunk lengths of a text of `n` characters at chunk size 20. -/
def chunkLens20 : Nat → List Nat
  | 0 => []
  | n + 1 => min 20 (n + 1) :: chunkLens20 (n + 1 - 20)

theorem chunkList_lengths :
    ∀ (fuel : Nat) (l : List Char), l.length ≤ fuel →
      (chunkList 20 fuel l).map List.length = chunkLens20 l.length := by
  intro fuel
  induction fuel with
  | zero =>
      intro l hl
      rw [List.eq_nil_of_length_eq_zero (Nat.le_zero.mp hl)]
      simp [chunkList, chunkLens20]
  | succ n ih =>
      intro l hl
      cases l with
      | nil => simp [chunkList, chunkLens20]
      | cons c t =>
          simp only [List.length_cons] at hl
          simp only [chunkList, List.map_cons]
          rw [ih ((c :: t).drop 20) (by
            simp only [List.length_drop, List.length_cons]
            omega)]
          rw [List.length_take, List.length_drop]
          rw [show (c :: t).length = t.length + 1 from rfl, chunkLens20]

/-- A 47-character reply. -/
def reply47 : AgentResponse :=
  { message := "aaaaaaaaaaaaaaaaaaaaaaaaaaaaaaaaaaaaaaaaaaaaaaa"
    agent_type := "general" }

/-- C9 (behavior of the code as written, at the claim's input): on a
47-character reply the stream emits the 3 chunk events of lengths 20, 20, 7
in order, but then a single `error` event — the `metadata` and terminal
`done` events of the claim are never emitted, because building the metadata
frame evaluates the non-existent `agent_response.actions`. -/
theorem chat_stream_47_emits_error_not_metadata :
    reply47.message.length = 47
    ∧ chat_stream_events 1 reply47 9
      = [StreamEvent.conversation_id 1,
         StreamEvent.chunk "aaaaaaaaaaaaaaaaaaaa",
         StreamEvent.chunk "aaaaaaaaaaaaaaaaaaaa",
         StreamEvent.chunk "aaaaaaa",
         StreamEvent.error_event "'AgentResponse' object has no attribute 'actions'"]
    ∧ ((chat_stream_events 1 reply47 9).filter (fun ev =>
        match ev with
        | StreamEvent.metadata _ _ _ => true
        | StreamEvent.done _ => true
        | _ => false)) = []
    ∧ chat_stream_events_intended 1 reply47 [] 9
      = [StreamEvent.conversation_id 1,
         StreamEvent.chunk "aaaaaaaaaaaaaaaaaaaa",
         StreamEvent.chunk "aaaaaaaaaaaaaaaaaaaa",
         StreamEvent.chunk "aaaaaaa",
         StreamEvent.metadata "general" [] [],
         StreamEvent.done 9] :=
  ⟨by decide, by decide, by decide, by decide⟩
